import Mathlib

/-!
Verification of the column-classification and summary-table logic of an
air-pollution data retrieval library (`process_data.py`, `inspect_site.py`,
`raw_data.py`).  Python lists of column titles are modelled as `List String`,
tabular data as association lists from column title to column values
(with `none` modelling NaN), and Python's negative-index semantics and
exceptions are modelled explicitly via `Option` and `Except`.
-/

namespace AirPollution

/-- Check whether the character list `pat` is an initial segment of `s`. -/
def leadMatches : List Char → List Char → Bool
  | [], _ => true
  | _ :: _, [] => false
  | p :: ps, c :: cs => (p == c) && leadMatches ps cs

/-- Substring containment on character lists: some contiguous run of `hay`
equals `pat`.  Models Python's `in` operator on strings. -/
def sublistContains : List Char → List Char → Bool
  | [], pat => pat.isEmpty
  | c :: rest, pat => leadMatches pat (c :: rest) || sublistContains rest pat

/-- Containment test `pat in hay` on strings, as used by the Python code to
detect metadata markers in column titles. -/
def strContainsSub (hay pat : String) : Bool :=
  sublistContains hay.data pat.data

/-- Python list indexing `l[i]`: a nonnegative index reads from the front, a
negative index in `[-len, -1]` silently wraps around to `len + i`, and any
other index raises `IndexError`, modelled by `none`. -/
def pyIndex (l : List String) (i : Int) : Option String :=
  if 0 ≤ i then l.get? i.toNat
  else if 0 ≤ (l.length : Int) + i then l.get? ((l.length : Int) + i).toNat
  else none

/-- Model of `generate_metadata_column_title` (process_data.py, lines
228-235): a title containing `status_str` is rebuilt from the column at
offset `status_offset`, else a title containing `unit_str` from the column at
offset `unit_offset`, else the title is returned unchanged.  `none` models an
`IndexError` escaping from the Python list lookup. -/
def generate_metadata_column_title (col_list : List String) (input_col_idx : Nat)
    (input_col_title : String) (status_str unit_str : String)
    (status_offset unit_offset : Int) : Option String :=
  if strContainsSub input_col_title status_str then
    (pyIndex col_list ((input_col_idx : Int) + status_offset)).map
      (fun t => t ++ " " ++ status_str)
  else if strContainsSub input_col_title unit_str then
    (pyIndex col_list ((input_col_idx : Int) + unit_offset)).map
      (fun t => t ++ " " ++ unit_str)
  else
    some input_col_title

/-- Recursion underlying `rename_status_and_unit_columns`: the Python list
comprehension `[generate_metadata_column_title(input_col_list, idx, col, ...)
for idx, col in enumerate(input_col_list)]`, with the running index made
explicit and an `IndexError` in any element aborting the whole comprehension. -/
def rename_titles_go (col_list : List String) (status_str unit_str : String)
    (status_offset unit_offset : Int) : Nat → List String → Option (List String)
  | _, [] => some []
  | idx, col :: rest =>
    match generate_metadata_column_title col_list idx col status_str unit_str
        status_offset unit_offset with
    | none => none
    | some newTitle =>
      (rename_titles_go col_list status_str unit_str status_offset unit_offset
        (idx + 1) rest).map (fun tail => newTitle :: tail)

/-- The new column-title list produced by `rename_status_and_unit_columns`
(process_data.py, lines 139-185) from the original title list. -/
def rename_column_titles (col_list : List String) (status_str unit_str : String)
    (status_offset unit_offset : Int) : Option (List String) :=
  rename_titles_go col_list status_str unit_str status_offset unit_offset 0 col_list

/-- A pandas DataFrame, reduced to what the verified code observes: an ordered
association list from column title to the column's values, where `none` models
a NaN entry. -/
abbrev DataFrame := List (String × List (Option Int))

/-- The column-title list of a DataFrame (`df.columns.tolist()`). -/
def df_cols (df : DataFrame) : List String := df.map (fun p => p.1)

/-- Column selection `df[col]`: values of the first column titled `col`. -/
def df_col_data (df : DataFrame) (col : String) : List (Option Int) :=
  ((df.find? (fun p => p.1 == col)).map (fun p => p.2)).getD []

/-- Model of `rename_status_and_unit_columns` (process_data.py, lines
139-185): retitles every column using `generate_metadata_column_title`,
keeping the column data; `none` models a propagated `IndexError`. -/
def rename_status_and_unit_columns (input_df : DataFrame)
    (status_str unit_str : String) (status_offset unit_offset : Int) :
    Option DataFrame :=
  (rename_column_titles (df_cols input_df) status_str unit_str status_offset
    unit_offset).map (fun newTitles => newTitles.zip (input_df.map (fun p => p.2)))

/-- Model of `split_column_types` (process_data.py, lines 105-136): status
columns are the titles containing `status_str`, unit columns the titles
containing `unit_str`, measurement columns everything in neither list.
Returned in the source's order: (measurement, status, unit). -/
def split_column_types (reference_cols : List String)
    (status_str unit_str : String) : List String × List String × List String :=
  let status_cols := reference_cols.filter (fun col => strContainsSub col status_str)
  let unit_cols := reference_cols.filter (fun col => strContainsSub col unit_str)
  let measurement_cols := reference_cols.filter
    (fun col => !(status_cols.contains col) && !(unit_cols.contains col))
  (measurement_cols, status_cols, unit_cols)

/-- Number of distinct non-missing values of a column:
`series.nunique(dropna=True)`. -/
def nunique_dropna (col_values : List (Option Int)) : Nat :=
  (col_values.filterMap id).dedup.length

/-- Number of distinct values counting NaN as one extra value when present:
`series.nunique(dropna=False)`. -/
def nunique_withnan (col_values : List (Option Int)) : Nat :=
  nunique_dropna col_values + (if none ∈ col_values then 1 else 0)

/-- A cell of a summary table.  `nan` is the pandas missing-value placeholder
that appears in rows of a freshly created column; the other constructors
model the Python values stored by the summary-building code. -/
inductive Cell where
  | nan : Cell
  | boolC : Bool → Cell
  | floatC : Nat → Cell
  | strC : String → Cell
  | intC : Int → Cell
  deriving DecidableEq, Repr

/-- A raw pandas value read back out of a data column, as stored in a summary
cell: a number, or NaN. -/
def cellOfRaw : Option Int → Cell
  | some v => Cell.intC v
  | none => Cell.nan

/-- The value stored by one iteration of the column loop of
`fill_status_summary_row` (inspect_site.py, lines 463-477) for a status
column with values `col_values`. -/
def status_summary_cell (count_only : Bool) (col_values : List (Option Int)) : Cell :=
  let unique_count := nunique_dropna col_values
  if count_only then Cell.floatC unique_count
  else
    let unique_count_with_nan := nunique_withnan col_values
    if unique_count = 1 ∧ unique_count_with_nan = 2 then
      Cell.strC (toString (col_values.filterMap id).headI ++ "  (+ NaNs)")
    else if unique_count = 1 ∧ unique_count_with_nan = 1 then
      cellOfRaw col_values.headI
    else
      Cell.strC (toString unique_count ++ " different values")

/-- The value stored by one iteration of the column loop of
`fill_unit_summary_row` (inspect_site.py, lines 525-539) for a unit column
with values `col_values`.  The source duplicates the status logic verbatim. -/
def unit_summary_cell (count_only : Bool) (col_values : List (Option Int)) : Cell :=
  let unique_count := nunique_dropna col_values
  if count_only then Cell.floatC unique_count
  else
    let unique_count_with_nan := nunique_withnan col_values
    if unique_count = 1 ∧ unique_count_with_nan = 2 then
      Cell.strC (toString (col_values.filterMap id).headI ++ "  (+ NaNs)")
    else if unique_count = 1 ∧ unique_count_with_nan = 1 then
      cellOfRaw col_values.headI
    else
      Cell.strC (toString unique_count ++ " different values")

/-- A summary DataFrame: a list of column labels, a row count, and the cell
contents, addressed by row index and column label.  Cells of labels outside
`cols` are irrelevant; pandas semantics of label-based assignment (including
creation of a fresh column holding `nan` in every other row) is captured by
`set_cell` below. -/
structure Summary where
  cols : List String
  nrows : Nat
  cell : Nat → String → Cell

/-- Label-based single-cell assignment `df.loc[i, c] = v`.  Assigning to a
label not yet among the columns appends a fresh column whose other rows are
filled with `nan`. -/
def set_cell (t : Summary) (i : Nat) (c : String) (v : Cell) : Summary :=
  if c ∈ t.cols then
    { t with cell := fun j d => if j = i ∧ d = c then v else t.cell j d }
  else
    { cols := t.cols ++ [c], nrows := t.nrows,
      cell := fun j d => if d = c then (if j = i then v else Cell.nan) else t.cell j d }

/-- Whole-row assignment `df.loc[i, :] = v`: every existing column of row `i`
receives `v`. -/
def set_row (t : Summary) (i : Nat) (v : Cell) : Summary :=
  { t with cell := fun j d => if j = i ∧ d ∈ t.cols then v else t.cell j d }

/-- Model of `df.fillna(value=v, inplace=True)`: replaces every `nan` cell. -/
def fillna (t : Summary) (v : Cell) : Summary :=
  { t with cell := fun j d => if t.cell j d = Cell.nan then v else t.cell j d }

/-- Model of `df.replace(to_replace=old, value=new, inplace=True)`. -/
def replace_cell (t : Summary) (old new : Cell) : Summary :=
  { t with cell := fun j d => if t.cell j d = old then new else t.cell j d }

/-- Model of `create_empty_summary` (inspect_site.py, lines 314-342): first a
year column holding the placeholder string "blank", then one column per entry
of `summary_cols` holding `False`, with one row per year of interest.  The
Python dict-update semantics makes `summary_cols` win on a label collision. -/
def create_empty_summary (summary_cols : List String) (years_of_interest : List Int)
    (year_col_title : String) : Summary :=
  { cols := year_col_title :: summary_cols,
    nrows := years_of_interest.length,
    cell := fun _ d =>
      if d ∈ summary_cols then Cell.boolC false
      else if d = year_col_title then Cell.strC "blank"
      else Cell.nan }

/-- Model of `mark_invalid_year` (inspect_site.py, lines 345-382): fill the
whole row with the sentinel ("no data", or 0.0 in count mode), then overwrite
the year cell with the year itself. -/
def mark_invalid_year (input_summary : Summary) (invalid_year : Int) (row_idx : Nat)
    (year_col_title : String) (count_only : Bool) : Summary :=
  let output_summary :=
    if count_only then set_row input_summary row_idx (Cell.floatC 0)
    else set_row input_summary row_idx (Cell.strC "no data")
  set_cell output_summary row_idx year_col_title (Cell.intC invalid_year)

/-- Model of `fill_measurement_summary_row` (inspect_site.py, lines 385-417):
record the year, then mark every measurement column of this year's data as
present (`True`). -/
def fill_measurement_summary_row (input_summary : Summary) (year : Int) (row_idx : Nat)
    (measurement_cols : List String) (year_col_title : String) : Summary :=
  let t := set_cell input_summary row_idx year_col_title (Cell.intC year)
  measurement_cols.foldl (fun acc col => set_cell acc row_idx col (Cell.boolC true)) t

/-- Model of `fill_status_summary_row` (inspect_site.py, lines 420-479):
record the year, then store `status_summary_cell` for each status column of
this year's data. -/
def fill_status_summary_row (input_summary : Summary) (year : Int) (row_idx : Nat)
    (single_year_data : DataFrame) (status_cols : List String)
    (year_col_title : String) (count_only : Bool) : Summary :=
  let t := set_cell input_summary row_idx year_col_title (Cell.intC year)
  status_cols.foldl
    (fun acc col =>
      set_cell acc row_idx col
        (status_summary_cell count_only (df_col_data single_year_data col))) t

/-- Model of `fill_unit_summary_row` (inspect_site.py, lines 482-541):
record the year, then store `unit_summary_cell` for each unit column of this
year's data. -/
def fill_unit_summary_row (input_summary : Summary) (year : Int) (row_idx : Nat)
    (single_year_data : DataFrame) (unit_cols : List String)
    (year_col_title : String) (count_only : Bool) : Summary :=
  let t := set_cell input_summary row_idx year_col_title (Cell.intC year)
  unit_cols.foldl
    (fun acc col =>
      set_cell acc row_idx col
        (unit_summary_cell count_only (df_col_data single_year_data col))) t

/-- The year-column title used by `monitoring_site_summary`. -/
def year_col_title : String := "Data Set (Year)"

/-- Python exceptions that the modelled code can raise. -/
inductive PyErr where
  | valueError : String → PyErr
  | indexError : PyErr
  deriving DecidableEq, Repr

/-- The collaborator `pd.read_csv(url, header=h, nrows=n)`: from a URL, a
header line index and an optional row limit, either a parsed table or a
raised parse/network error. -/
abbrev ReadCsv := String → Nat → Option Nat → Except String DataFrame

/-- URL construction of `get_single_year` (raw_data.py, line 133). -/
def build_data_url (fixed_url site_id sep : String) (year : Int)
    (file_format : String) : String :=
  fixed_url ++ site_id ++ sep ++ toString year ++ "." ++ file_format

/-- The diagnostic printed by `get_single_year` when a download fails
(raw_data.py, lines 138-144). -/
def warning_message (data_url : String) : String :=
  "-------\nWARNING\n-------\nCould not read data from: " ++ data_url ++
    "\nCheck the URL to ensure location code, year and file extension are all valid!"

/-- Model of `get_single_year` (raw_data.py, lines 92-146): build the URL,
attempt the parse, and on any failure print a warning naming the URL and
return `none`.  The second component collects the printed diagnostics. -/
def get_single_year (read_csv : ReadCsv) (site_id : String) (year : Int)
    (nrows : Option Nat) (header_lines : Nat) (fixed_url sep file_format : String) :
    Option DataFrame × List String :=
  let data_url := build_data_url fixed_url site_id sep year file_format
  match read_csv data_url header_lines nrows with
  | Except.ok single_year => (some single_year, [])
  | Except.error _ => (none, [warning_message data_url])

/-- Python `list.sort(reverse=True)` on the years list: descending order. -/
def pySortDesc (l : List Int) : List Int := List.insertionSort (fun a b => a ≥ b) l

/-- The `ValueError` message raised by `get_reference_columns` when no year
can be downloaded (process_data.py, lines 98-102); it quotes the sorted
years list's last and first elements, i.e. the min and max year. -/
def ref_error_msg (fixed_url : String) (years_sorted : List Int) : String :=
  "Could not read data from: " ++ fixed_url ++ " for any years: " ++
    toString (years_sorted.getLastD 0) ++ " - " ++ toString (years_sorted.headD 0) ++
    "\nCheck the URL to ensure location code, years and file extension are all valid!"

/-- The scanning loop of `get_reference_columns` (process_data.py, lines
73-102): try each year of the (already sorted) list with `nrows=1`; on the
first success rename the metadata columns and return the column titles; if
the list is exhausted raise `ValueError` (or `IndexError` when the years list
was empty, since the message formatting indexes into the empty list). -/
def reference_columns_scan (read_csv : ReadCsv) (site_id : String)
    (header_lines : Nat) (fixed_url sep file_format status_str unit_str : String)
    (status_offset unit_offset : Int) (years_sorted : List Int) :
    List Int → Except PyErr (List String)
  | [] =>
    if years_sorted.isEmpty then Except.error PyErr.indexError
    else Except.error (PyErr.valueError (ref_error_msg fixed_url years_sorted))
  | indv_year :: rest =>
    match (get_single_year read_csv site_id indv_year (some 1) header_lines
        fixed_url sep file_format).1 with
    | some reference_year =>
      match rename_status_and_unit_columns reference_year status_str unit_str
          status_offset unit_offset with
      | some renamed => Except.ok (df_cols renamed)
      | none => Except.error PyErr.indexError
    | none =>
      reference_columns_scan read_csv site_id header_lines fixed_url sep
        file_format status_str unit_str status_offset unit_offset years_sorted rest

/-- Model of `get_reference_columns` (process_data.py, lines 8-102).  The
Python function first sorts `years_of_interest` in place (descending); the
first component of the result is the caller's list after that mutation, the
second the returned reference columns or the raised exception. -/
def get_reference_columns (read_csv : ReadCsv) (site_id : String)
    (years_of_interest : List Int) (header_lines : Nat)
    (fixed_url sep file_format status_str unit_str : String)
    (status_offset unit_offset : Int) : List Int × Except PyErr (List String) :=
  let years_sorted := pySortDesc years_of_interest
  (years_sorted,
    reference_columns_scan read_csv site_id header_lines fixed_url sep file_format
      status_str unit_str status_offset unit_offset years_sorted years_sorted)

/-- The mutable state of `monitoring_site_summary`'s main loop: the five
summary tables being built and the per-year data dictionary. -/
structure SummaryState where
  measurement_summary : Summary
  status_summary : Summary
  unit_summary : Summary
  unique_status_counts : Summary
  unique_unit_counts : Summary
  data_dict : List (Int × DataFrame)

/-- The summary tables before the loop of `monitoring_site_summary`
(inspect_site.py, lines 181-210): empty tables over the split of the
reference columns. -/
def initial_state (reference_cols : List String) (years_sorted : List Int)
    (status_str unit_str : String) : SummaryState :=
  let parts := split_column_types reference_cols status_str unit_str
  { measurement_summary := create_empty_summary parts.1 years_sorted year_col_title,
    status_summary := create_empty_summary parts.2.1 years_sorted year_col_title,
    unit_summary := create_empty_summary parts.2.2 years_sorted year_col_title,
    unique_status_counts := create_empty_summary parts.2.1 years_sorted year_col_title,
    unique_unit_counts := create_empty_summary parts.2.2 years_sorted year_col_title,
    data_dict := [] }

/-- One iteration of the loop of `monitoring_site_summary` (inspect_site.py,
lines 212-297) for year `indv_year` at row `idx`: either mark the year
invalid in all five tables, or rename and split this year's columns and fill
the corresponding row of each table.  `none` models an `IndexError` escaping
from the metadata renaming. -/
def summary_step (fetch : Int → Option DataFrame) (status_str unit_str : String)
    (status_offset unit_offset : Int) (ycol : String) (st : SummaryState)
    (idx : Nat) (indv_year : Int) : Option SummaryState :=
  match fetch indv_year with
  | none =>
    some { st with
      measurement_summary :=
        mark_invalid_year st.measurement_summary indv_year idx ycol false,
      status_summary := mark_invalid_year st.status_summary indv_year idx ycol false,
      unit_summary := mark_invalid_year st.unit_summary indv_year idx ycol false,
      unique_status_counts :=
        mark_invalid_year st.unique_status_counts indv_year idx ycol true,
      unique_unit_counts :=
        mark_invalid_year st.unique_unit_counts indv_year idx ycol true }
  | some raw =>
    match rename_status_and_unit_columns raw status_str unit_str status_offset
        unit_offset with
    | none => none
    | some single_year =>
      let parts := split_column_types (df_cols single_year) status_str unit_str
      some
        { measurement_summary :=
            fill_measurement_summary_row st.measurement_summary indv_year idx
              parts.1 ycol,
          status_summary :=
            fill_status_summary_row st.status_summary indv_year idx single_year
              parts.2.1 ycol false,
          unit_summary :=
            fill_unit_summary_row st.unit_summary indv_year idx single_year
              parts.2.2 ycol false,
          unique_status_counts :=
            fill_status_summary_row st.unique_status_counts indv_year idx
              single_year parts.2.1 ycol true,
          unique_unit_counts :=
            fill_unit_summary_row st.unique_unit_counts indv_year idx single_year
              parts.2.2 ycol true,
          data_dict := st.data_dict ++ [(indv_year, single_year)] }

/-- The loop `for idx, indv_year in enumerate(years)` of
`monitoring_site_summary`, with the running row index made explicit.  A
failed year is marked and processing continues with the remaining years. -/
def summary_loop (fetch : Int → Option DataFrame) (status_str unit_str : String)
    (status_offset unit_offset : Int) (ycol : String) :
    SummaryState → Nat → List Int → Option SummaryState
  | st, _, [] => some st
  | st, idx, indv_year :: rest =>
    match summary_step fetch status_str unit_str status_offset unit_offset ycol st
        idx indv_year with
    | some st2 =>
      summary_loop fetch status_str unit_str status_offset unit_offset ycol st2
        (idx + 1) rest
    | none => none

/-- The finalisation step of `monitoring_site_summary` (inspect_site.py,
lines 299-304): fill remaining `nan` cells of the measurement table with
`False`, and in the two count tables replace the `False` placeholders with
0.0 and fill remaining `nan` cells with 0.0. -/
def finalize_state (st : SummaryState) : SummaryState :=
  { st with
    measurement_summary := fillna st.measurement_summary (Cell.boolC false),
    unique_status_counts :=
      fillna (replace_cell st.unique_status_counts (Cell.boolC false) (Cell.floatC 0))
        (Cell.floatC 0),
    unique_unit_counts :=
      fillna (replace_cell st.unique_unit_counts (Cell.boolC false) (Cell.floatC 0))
        (Cell.floatC 0) }

/-- Model of `monitoring_site_summary` (inspect_site.py, lines 110-311),
returning the full final state (the source also hands the two count tables to
the plotting collaborator).  Note the loop iterates the years list as mutated
(sorted descending) by `get_reference_columns`. -/
def monitoring_site_summary_state (read_csv : ReadCsv) (site_id : String)
    (years_of_interest : List Int) (header_lines : Nat)
    (fixed_url sep file_format status_str unit_str : String)
    (status_offset unit_offset : Int) : Except PyErr SummaryState :=
  match get_reference_columns read_csv site_id years_of_interest header_lines
      fixed_url sep file_format status_str unit_str status_offset unit_offset with
  | (_, Except.error e) => Except.error e
  | (years_sorted, Except.ok reference_cols) =>
    match summary_loop
        (fun y => (get_single_year read_csv site_id y none header_lines fixed_url
          sep file_format).1)
        status_str unit_str status_offset unit_offset year_col_title
        (initial_state reference_cols years_sorted status_str unit_str) 0
        years_sorted with
    | some st => Except.ok (finalize_state st)
    | none => Except.error PyErr.indexError

/-- The quadruple actually returned by `monitoring_site_summary`: the data
dictionary and the three descriptive summary tables. -/
def monitoring_site_summary (read_csv : ReadCsv) (site_id : String)
    (years_of_interest : List Int) (header_lines : Nat)
    (fixed_url sep file_format status_str unit_str : String)
    (status_offset unit_offset : Int) :
    Except PyErr (List (Int × DataFrame) × Summary × Summary × Summary) :=
  (monitoring_site_summary_state read_csv site_id years_of_interest header_lines
      fixed_url sep file_format status_str unit_str status_offset unit_offset).map
    (fun st => (st.data_dict, st.measurement_summary, st.status_summary,
      st.unit_summary))

/-- A concrete `read_csv` collaborator used to exercise the pipeline: year
2020 has columns A and B, year 2019 only column A, and every other URL fails. -/
def witness_oracle_ab : ReadCsv := fun url _ _ =>
  if url = "uS_2020.csv" then Except.ok [("A", [some 1]), ("B", [some 2])]
  else if url = "uS_2019.csv" then Except.ok [("A", [some 1])]
  else Except.error "not found"

/-- A concrete `read_csv` collaborator where only year 2020 (with a single
column A) is retrievable. -/
def witness_oracle_a : ReadCsv := fun url _ _ =>
  if url = "uS_2020.csv" then Except.ok [("A", [some 1])]
  else Except.error "not found"

/-! Basic lemmas about the Python indexing model. -/

theorem pyIndex_eq_none_iff (l : List String) (i : Int) :
    pyIndex l i = none ↔ (i < -(l.length : Int) ∨ (l.length : Int) ≤ i) := by
  unfold pyIndex
  split_ifs with h1 h2
  · rw [List.get?_eq_none]
    omega
  · constructor
    · intro h
      rw [List.get?_eq_none] at h
      omega
    · intro h
      exfalso
      omega
  · simp only [true_iff]
    omega

theorem get?_eq_some_getD (l : List String) (n : Nat) (h : n < l.length) :
    l.get? n = some (l.getD n "") := by
  rw [List.get?_eq_get h, List.getD_eq_getElem l "" h, List.get_eq_getElem]

theorem pyIndex_nonneg (l : List String) (i : Int) (h0 : 0 ≤ i)
    (hl : i < (l.length : Int)) : pyIndex l i = some (l.getD i.toNat "") := by
  unfold pyIndex
  rw [if_pos h0]
  exact get?_eq_some_getD l i.toNat (by omega)

theorem pyIndex_wrap (l : List String) (i : Int) (h1 : -(l.length : Int) ≤ i)
    (h2 : i < 0) :
    pyIndex l i = some (l.getD ((l.length : Int) + i).toNat "") := by
  unfold pyIndex
  rw [if_neg (by omega), if_pos (by omega)]
  exact get?_eq_some_getD l ((l.length : Int) + i).toNat (by omega)

/-- C1 (amended).  `generate_metadata_column_title` raises `IndexError`
exactly when the offset lookup index `i + offset` falls outside Python's
extended index range `[-len, len)`; for a negative in-range index it does not
signal anything but silently wraps around, renaming from the column at
position `len + (i + offset)`.  Titles with neither marker pass through
unchanged. -/
theorem generate_metadata_column_title_range (col_list : List String) (i : Nat)
    (t status_str unit_str : String) (so uo : Int) :
    (strContainsSub t status_str = true →
      ((generate_metadata_column_title col_list i t status_str unit_str so uo = none ↔
          ((i : Int) + so < -(col_list.length : Int) ∨
            (col_list.length : Int) ≤ (i : Int) + so))
        ∧ (-(col_list.length : Int) ≤ (i : Int) + so → (i : Int) + so < 0 →
            generate_metadata_column_title col_list i t status_str unit_str so uo =
              some (col_list.getD ((col_list.length : Int) + ((i : Int) + so)).toNat ""
                ++ " " ++ status_str))))
    ∧ (strContainsSub t status_str = false → strContainsSub t unit_str = true →
      ((generate_metadata_column_title col_list i t status_str unit_str so uo = none ↔
          ((i : Int) + uo < -(col_list.length : Int) ∨
            (col_list.length : Int) ≤ (i : Int) + uo))
        ∧ (-(col_list.length : Int) ≤ (i : Int) + uo → (i : Int) + uo < 0 →
            generate_metadata_column_title col_list i t status_str unit_str so uo =
              some (col_list.getD ((col_list.length : Int) + ((i : Int) + uo)).toNat ""
                ++ " " ++ unit_str))))
    ∧ (strContainsSub t status_str = false → strContainsSub t unit_str = false →
        generate_metadata_column_title col_list i t status_str unit_str so uo =
          some t) := by
  refine ⟨?_, ?_, ?_⟩
  · intro hs
    unfold generate_metadata_column_title
    simp only [hs, if_true]
    constructor
    · rw [Option.map_eq_none']
      exact pyIndex_eq_none_iff col_list ((i : Int) + so)
    · intro h1 h2
      rw [pyIndex_wrap col_list ((i : Int) + so) h1 h2]
      rfl
  · intro hs hu
    unfold generate_metadata_column_title
    simp only [hs, hu, if_true, Bool.false_eq_true, if_false]
    constructor
    · rw [Option.map_eq_none']
      exact pyIndex_eq_none_iff col_list ((i : Int) + uo)
    · intro h1 h2
      rw [pyIndex_wrap col_list ((i : Int) + uo) h1 h2]
      rfl
  · intro hs hu
    unfold generate_metadata_column_title
    simp [hs, hu]

/-- C1 witness: with offset -5 the lookup index 1 - 5 = -4 lies below -2 and
the function signals the error. -/
theorem generate_metadata_column_title_range_witness :
    generate_metadata_column_title ["A", "B status"] 1 "B status" "status" "unit"
      (-5) (-2) = none :=
  ((generate_metadata_column_title_range ["A", "B status"] 1 "B status" "status"
      "unit" (-5) (-2)).1 (by decide)).1.mpr (by decide)

/-- C1 counterexample: for the column list ["status", "NO2"], the status
column at index 0 with the default offset -1 yields lookup index -1, which
does not address an existing column position and should (per the claim)
fail loudly; instead the code silently wraps around to the last column and
returns its title "NO2" with the marker appended. -/
theorem generate_metadata_column_title_wrap_cex :
    generate_metadata_column_title ["status", "NO2"] 0 "status" "status" "unit"
        (-1) (-2) ≠ none ∧
      generate_metadata_column_title ["status", "NO2"] 0 "status" "status" "unit"
        (-1) (-2) = some "NO2 status" := by
  decide

/-! Lemmas about the renaming comprehension. -/

theorem rename_titles_go_get? (cl : List String) (s u : String) (so uo : Int) :
    ∀ (ts : List String) (k : Nat) (out : List String),
      rename_titles_go cl s u so uo k ts = some out →
      ∀ (j : Nat) (t : String), ts.get? j = some t →
        ∃ t2, generate_metadata_column_title cl (k + j) t s u so uo = some t2 ∧
          out.get? j = some t2 := by
  intro ts
  induction ts with
  | nil =>
    intro k out _ j t hj
    simp at hj
  | cons a rest ih =>
    intro k out h j t hj
    unfold rename_titles_go at h
    cases hg : generate_metadata_column_title cl k a s u so uo with
    | none =>
      rw [hg] at h
      simp at h
    | some na =>
      rw [hg] at h
      cases hr : rename_titles_go cl s u so uo (k + 1) rest with
      | none =>
        rw [hr] at h
        simp at h
      | some tail =>
        rw [hr] at h
        simp only [Option.map_some', Option.some.injEq] at h
        cases j with
        | zero =>
          simp only [List.get?_cons_zero, Option.some.injEq] at hj
          subst hj
          refine ⟨na, ?_, ?_⟩
          · simpa using hg
          · rw [← h]
            rfl
        | succ j2 =>
          simp only [List.get?_cons_succ] at hj
          obtain ⟨t2, hgen, hout⟩ := ih (k + 1) tail hr j2 t hj
          refine ⟨t2, ?_, ?_⟩
          · have harith : k + 1 + j2 = k + (j2 + 1) := by omega
            rw [← harith]
            exact hgen
          · rw [← h]
            simpa using hout

/-- C2 (amended).  When `rename_column_titles` succeeds, a title containing
the status marker is rebuilt from the original title at index `i + so`
followed by a space and the marker (stated for the in-range nonnegative
lookup the claim presupposes); a title containing the unit marker but NOT
the status marker (the source checks the status marker first) is rebuilt
analogously with `uo`; a title containing neither marker is unchanged. -/
theorem rename_column_titles_spec (cl : List String) (s u : String) (so uo : Int)
    (out : List String) (hout : rename_column_titles cl s u so uo = some out)
    (i : Nat) (t : String) (hi : cl.get? i = some t) :
    (strContainsSub t s = true → 0 ≤ (i : Int) + so →
        (i : Int) + so < (cl.length : Int) →
      out.get? i = some (cl.getD ((i : Int) + so).toNat "" ++ " " ++ s))
    ∧ (strContainsSub t s = false → strContainsSub t u = true →
        0 ≤ (i : Int) + uo → (i : Int) + uo < (cl.length : Int) →
      out.get? i = some (cl.getD ((i : Int) + uo).toNat "" ++ " " ++ u))
    ∧ (strContainsSub t s = false → strContainsSub t u = false →
      out.get? i = some t) := by
  obtain ⟨t2, hgen, ho⟩ :=
    rename_titles_go_get? cl s u so uo cl 0 out hout i t hi
  rw [Nat.zero_add] at hgen
  refine ⟨?_, ?_, ?_⟩
  · intro hs h0 hl
    unfold generate_metadata_column_title at hgen
    simp only [hs, if_true] at hgen
    rw [pyIndex_nonneg cl ((i : Int) + so) h0 hl] at hgen
    simp only [Option.map_some', Option.some.injEq] at hgen
    rw [← hgen] at ho
    exact ho
  · intro hs hu h0 hl
    unfold generate_metadata_column_title at hgen
    simp only [hs, hu, if_true, Bool.false_eq_true, if_false] at hgen
    rw [pyIndex_nonneg cl ((i : Int) + uo) h0 hl] at hgen
    simp only [Option.map_some', Option.some.injEq] at hgen
    rw [← hgen] at ho
    exact ho
  · intro hs hu
    unfold generate_metadata_column_title at hgen
    simp only [hs, hu, Bool.false_eq_true, if_false, Option.some.injEq] at hgen
    rw [← hgen] at ho
    exact ho

/-- C2 witness: the spec's own example, with the already-correct convention
["NO2", "NO2 status", "NO2 unit"]: the status column at index 1 is renamed
from the column at index 0. -/
theorem rename_column_titles_spec_witness :
    (["NO2", "NO2 status", "NO2 unit"] : List String).get? 1 = some "NO2 status" :=
  (rename_column_titles_spec ["NO2", "NO2 status", "NO2 unit"] "status" "unit"
      (-1) (-2) ["NO2", "NO2 status", "NO2 unit"] (by decide) 1 "NO2 status"
      (by decide)).1 (by decide) (by decide) (by decide)

/-- C2 counterexample: the title "u unit status" at index 2 contains the unit
marker, and index 2 - 2 = 0 holds the title "A", so the claim's unit clause
demands the new title "A unit"; the code checks the status marker first and
produces "B status" instead. -/
theorem rename_column_titles_unit_cex :
    rename_column_titles ["A", "B", "u unit status"] "status" "unit" (-1) (-2) =
        some ["A", "B", "B status"] ∧
      ("B status" : String) ≠ "A" ++ " " ++ "unit" := by
  decide

/-! Membership characterisations of the three lists built by
`split_column_types`. -/

theorem mem_split_status (cols : List String) (s u c : String) :
    c ∈ (split_column_types cols s u).2.1 ↔
      (c ∈ cols ∧ strContainsSub c s = true) := by
  simp [split_column_types, List.mem_filter]

theorem mem_split_unit (cols : List String) (s u c : String) :
    c ∈ (split_column_types cols s u).2.2 ↔
      (c ∈ cols ∧ strContainsSub c u = true) := by
  simp [split_column_types, List.mem_filter]

theorem mem_split_measurement (cols : List String) (s u c : String) :
    c ∈ (split_column_types cols s u).1 ↔
      (c ∈ cols ∧ strContainsSub c s = false ∧ strContainsSub c u = false) := by
  simp only [split_column_types, List.mem_filter, Bool.and_eq_true,
    Bool.not_eq_true']
  constructor
  · rintro ⟨hc, h1, h2⟩
    refine ⟨hc, ?_, ?_⟩
    · cases hsv : strContainsSub c s with
      | false => rfl
      | true =>
        exfalso
        have hmem : c ∈ cols.filter (fun col => strContainsSub col s) :=
          List.mem_filter.mpr ⟨hc, hsv⟩
        rw [← List.elem_iff] at hmem
        have hfe : List.elem c (cols.filter (fun col => strContainsSub col s)) = false := h1
        rw [hfe] at hmem
        exact Bool.false_ne_true hmem
    · cases huv : strContainsSub c u with
      | false => rfl
      | true =>
        exfalso
        have hmem : c ∈ cols.filter (fun col => strContainsSub col u) :=
          List.mem_filter.mpr ⟨hc, huv⟩
        rw [← List.elem_iff] at hmem
        have hfe : List.elem c (cols.filter (fun col => strContainsSub col u)) = false := h2
        rw [hfe] at hmem
        exact Bool.false_ne_true hmem
  · rintro ⟨hc, h1, h2⟩
    refine ⟨hc, ?_, ?_⟩
    · cases hcv : (cols.filter (fun col => strContainsSub col s)).contains c with
      | false => rfl
      | true =>
        exfalso
        have hmem := (List.mem_filter.mp (List.elem_iff.mp hcv)).2
        rw [h1] at hmem
        exact Bool.false_ne_true hmem
    · cases hcv : (cols.filter (fun col => strContainsSub col u)).contains c with
      | false => rfl
      | true =>
        exfalso
        have hmem := (List.mem_filter.mp (List.elem_iff.mp hcv)).2
        rw [h2] at hmem
        exact Bool.false_ne_true hmem

/-- C3 (amended).  `split_column_types` returns three order-preserving
sublists of the input: status columns (titles containing the status marker),
unit columns (titles containing the unit marker, with NO exclusion of titles
already classified as status), and measurement columns (the rest).  Their
union as a set is the input set and the measurement list is disjoint from
the other two; the status and unit lists themselves are disjoint only under
the extra assumption that no input title contains both markers. -/
theorem split_column_types_partition (cols : List String) (s u : String) :
    (List.Sublist (split_column_types cols s u).1 cols
      ∧ List.Sublist (split_column_types cols s u).2.1 cols
      ∧ List.Sublist (split_column_types cols s u).2.2 cols)
    ∧ (∀ c, c ∈ cols ↔
        (c ∈ (split_column_types cols s u).1 ∨ c ∈ (split_column_types cols s u).2.1
          ∨ c ∈ (split_column_types cols s u).2.2))
    ∧ (∀ c, c ∈ (split_column_types cols s u).1 →
        ¬ c ∈ (split_column_types cols s u).2.1
          ∧ ¬ c ∈ (split_column_types cols s u).2.2)
    ∧ (∀ c, c ∈ (split_column_types cols s u).2.1 ↔
        (c ∈ cols ∧ strContainsSub c s = true))
    ∧ (∀ c, c ∈ (split_column_types cols s u).2.2 ↔
        (c ∈ cols ∧ strContainsSub c u = true))
    ∧ ((∀ c ∈ cols, ¬(strContainsSub c s = true ∧ strContainsSub c u = true)) →
        ∀ c, ¬(c ∈ (split_column_types cols s u).2.1
          ∧ c ∈ (split_column_types cols s u).2.2)) := by
  refine ⟨⟨?_, ?_, ?_⟩, ?_, ?_, mem_split_status cols s u, mem_split_unit cols s u, ?_⟩
  · exact List.filter_sublist cols
  · exact List.filter_sublist cols
  · exact List.filter_sublist cols
  · intro c
    constructor
    · intro hc
      cases hs : strContainsSub c s with
      | true => exact Or.inr (Or.inl ((mem_split_status cols s u c).mpr ⟨hc, hs⟩))
      | false =>
        cases hu : strContainsSub c u with
        | true => exact Or.inr (Or.inr ((mem_split_unit cols s u c).mpr ⟨hc, hu⟩))
        | false =>
          exact Or.inl ((mem_split_measurement cols s u c).mpr ⟨hc, hs, hu⟩)
    · intro hc
      rcases hc with hm | hs | hu
      · exact ((mem_split_measurement cols s u c).mp hm).1
      · exact ((mem_split_status cols s u c).mp hs).1
      · exact ((mem_split_unit cols s u c).mp hu).1
  · intro c hm
    obtain ⟨hc, hs, hu⟩ := (mem_split_measurement cols s u c).mp hm
    constructor
    · intro hmem
      have := ((mem_split_status cols s u c).mp hmem).2
      rw [hs] at this
      exact Bool.false_ne_true this
    · intro hmem
      have := ((mem_split_unit cols s u c).mp hmem).2
      rw [hu] at this
      exact Bool.false_ne_true this
  · intro hno c hboth
    obtain ⟨h1, h2⟩ := hboth
    obtain ⟨hc, hs⟩ := (mem_split_status cols s u c).mp h1
    obtain ⟨_, hu⟩ := (mem_split_unit cols s u c).mp h2
    exact hno c hc ⟨hs, hu⟩

/-- C3 witness: on the already-correct convention no title contains both
markers, so the status and unit lists are disjoint, instantiated at the
renamed status title. -/
theorem split_column_types_partition_witness :
    ¬("NO2 status" ∈ (split_column_types ["NO2", "NO2 status", "NO2 unit"]
          "status" "unit").2.1
      ∧ "NO2 status" ∈ (split_column_types ["NO2", "NO2 status", "NO2 unit"]
          "status" "unit").2.2) :=
  (split_column_types_partition ["NO2", "NO2 status", "NO2 unit"] "status"
      "unit").2.2.2.2.2 (by decide) "NO2 status"

/-- C3 counterexample: with the default (non-overlapping) markers "status"
and "unit", the single title "unit status" contains both markers and is
placed in BOTH the status list and the unit list, so the three lists are not
pairwise disjoint and the unit list is not restricted to titles not already
classified as status. -/
theorem split_column_types_overlap_cex :
    "unit status" ∈ (split_column_types ["unit status"] "status" "unit").2.1 ∧
      "unit status" ∈ (split_column_types ["unit status"] "status" "unit").2.2 := by
  decide

/-! Lemmas about the descriptive summary-cell logic. -/

theorem unit_summary_cell_eq_status :
    unit_summary_cell = status_summary_cell := rfl

theorem dedup_singleton_all_eq {l : List Int} {v : Int} (h : l.dedup = [v]) :
    ∀ x ∈ l, x = v := by
  intro x hx
  have hm : x ∈ l.dedup := List.mem_dedup.mpr hx
  rw [h] at hm
  simpa using hm

theorem status_summary_cell_single_nonan (cv : List (Option Int)) (v : Int)
    (hd : (cv.filterMap id).dedup = [v]) (hn : ¬ none ∈ cv) :
    status_summary_cell false cv = Cell.intC v := by
  have hu : nunique_dropna cv = 1 := by
    unfold nunique_dropna
    rw [hd]
    rfl
  have huw : nunique_withnan cv = 1 := by
    unfold nunique_withnan
    rw [if_neg hn, hu]
  cases cv with
  | nil => simp at hd
  | cons a rest =>
    have ha : a ≠ none := fun hab => hn (by rw [← hab]; exact List.mem_cons_self a rest)
    cases a with
    | none => exact absurd rfl ha
    | some w =>
      have hw : w ∈ (some w :: rest).filterMap id :=
        List.mem_filterMap.mpr ⟨some w, List.mem_cons_self _ _, rfl⟩
      have hwv : w = v := dedup_singleton_all_eq hd w hw
      unfold status_summary_cell
      simp only [Bool.false_eq_true, if_false]
      rw [if_neg (by rw [hu, huw]; simp), if_pos ⟨hu, huw⟩]
      simp [cellOfRaw, hwv]

theorem status_summary_cell_single_withnan (cv : List (Option Int)) (v : Int)
    (hd : (cv.filterMap id).dedup = [v]) (hn : none ∈ cv) :
    status_summary_cell false cv = Cell.strC (toString v ++ "  (+ NaNs)") := by
  have hu : nunique_dropna cv = 1 := by
    unfold nunique_dropna
    rw [hd]
    rfl
  have huw : nunique_withnan cv = 2 := by
    unfold nunique_withnan
    rw [if_pos hn, hu]
  have hne : cv.filterMap id ≠ [] := by
    intro hnil
    rw [hnil] at hd
    simp at hd
  have hhead : (cv.filterMap id).headI = v := by
    cases hfm : cv.filterMap id with
    | nil => exact absurd hfm hne
    | cons w ws =>
      have : w ∈ cv.filterMap id := by rw [hfm]; exact List.mem_cons_self _ _
      simpa using dedup_singleton_all_eq hd w this
  unfold status_summary_cell
  simp only [Bool.false_eq_true, if_false]
  rw [if_pos ⟨hu, huw⟩, hhead]

theorem status_summary_cell_other (cv : List (Option Int))
    (hu : nunique_dropna cv ≠ 1) :
    status_summary_cell false cv =
      Cell.strC (toString (nunique_dropna cv) ++ " different values") := by
  unfold status_summary_cell
  simp only [Bool.false_eq_true, if_false]
  rw [if_neg (by intro hc; exact hu hc.1), if_neg (by intro hc; exact hu hc.1)]

/-- C4.  In descriptive mode, a status/unit summary cell records the single
value verbatim when the column holds exactly one distinct non-missing value
and no NaN, the string "value  (+ NaNs)" when it additionally holds NaNs,
and otherwise "n different values" with n the number of distinct non-missing
values.  The same helper logic is duplicated for unit columns. -/
theorem descriptive_summary_cell_spec (cv : List (Option Int)) (v : Int) :
    ((cv.filterMap id).dedup = [v] → ¬ none ∈ cv →
      status_summary_cell false cv = Cell.intC v ∧
        unit_summary_cell false cv = Cell.intC v)
    ∧ ((cv.filterMap id).dedup = [v] → none ∈ cv →
      status_summary_cell false cv = Cell.strC (toString v ++ "  (+ NaNs)") ∧
        unit_summary_cell false cv = Cell.strC (toString v ++ "  (+ NaNs)"))
    ∧ (nunique_dropna cv ≠ 1 →
      status_summary_cell false cv =
          Cell.strC (toString (nunique_dropna cv) ++ " different values") ∧
        unit_summary_cell false cv =
          Cell.strC (toString (nunique_dropna cv) ++ " different values")) := by
  refine ⟨?_, ?_, ?_⟩
  · intro hd hn
    rw [unit_summary_cell_eq_status]
    exact ⟨status_summary_cell_single_nonan cv v hd hn,
      status_summary_cell_single_nonan cv v hd hn⟩
  · intro hd hn
    rw [unit_summary_cell_eq_status]
    exact ⟨status_summary_cell_single_withnan cv v hd hn,
      status_summary_cell_single_withnan cv v hd hn⟩
  · intro hu
    rw [unit_summary_cell_eq_status]
    exact ⟨status_summary_cell_other cv hu, status_summary_cell_other cv hu⟩

/-- C4 witness: the spec's example [5, 5, 5, NaN] yields "5  (+ NaNs)". -/
theorem descriptive_summary_cell_spec_witness :
    status_summary_cell false [some 5, some 5, some 5, none] =
      Cell.strC "5  (+ NaNs)" :=
  ((descriptive_summary_cell_spec [some 5, some 5, some 5, none] 5).2.1
    (by decide) (by decide)).1

/-- C10.  A status/unit column whose values are all missing has zero distinct
non-missing values, so descriptive mode takes the "otherwise" branch and
records the string "0 different values". -/
theorem all_missing_column_cell (cv : List (Option Int))
    (h : ∀ x ∈ cv, x = none) :
    status_summary_cell false cv = Cell.strC "0 different values" ∧
      unit_summary_cell false cv = Cell.strC "0 different values" := by
  have hfm : cv.filterMap id = [] := by
    rw [List.filterMap_eq_nil_iff]
    intro a ha
    simpa using h a ha
  have hu : nunique_dropna cv = 0 := by
    unfold nunique_dropna
    rw [hfm]
    rfl
  have hcell := status_summary_cell_other cv (by omega)
  rw [hu] at hcell
  have hstr : toString (0 : Nat) ++ " different values" = "0 different values" := by
    decide
  rw [hstr] at hcell
  rw [unit_summary_cell_eq_status]
  exact ⟨hcell, hcell⟩

/-- C10 witness: a two-row all-NaN column records "0 different values". -/
theorem all_missing_column_cell_witness :
    status_summary_cell false [none, none] = Cell.strC "0 different values" :=
  (all_missing_column_cell [none, none] (by decide)).1

/-! Infrastructure lemmas for the summary-table model. -/

theorem set_cell_self (t : Summary) (i : Nat) (c : String) (v : Cell) :
    (set_cell t i c v).cell i c = v := by
  unfold set_cell
  split_ifs with h
  · simp
  · simp

theorem set_cell_other_row (t : Summary) (i : Nat) (c : String) (v : Cell)
    (j : Nat) (d : String) (hj : j ≠ i) (hd : d ∈ t.cols) :
    (set_cell t i c v).cell j d = t.cell j d := by
  unfold set_cell
  split_ifs with h
  · simp [hj]
  · have hdc : d ≠ c := fun he => h (he ▸ hd)
    simp [hdc]

theorem set_cell_other_col (t : Summary) (i : Nat) (c : String) (v : Cell)
    (j : Nat) (d : String) (hd : d ≠ c) :
    (set_cell t i c v).cell j d = t.cell j d := by
  unfold set_cell
  split_ifs with h
  · simp [hd]
  · simp [hd]

theorem set_cell_mem_cols (t : Summary) (i : Nat) (c : String) (v : Cell)
    (d : String) (hd : d ∈ t.cols) : d ∈ (set_cell t i c v).cols := by
  unfold set_cell
  split_ifs with h
  · exact hd
  · simp only [List.mem_append]
    exact Or.inl hd

theorem set_cell_mem_self (t : Summary) (i : Nat) (c : String) (v : Cell) :
    c ∈ (set_cell t i c v).cols := by
  unfold set_cell
  split_ifs with h
  · exact h
  · simp

theorem set_row_cols (t : Summary) (i : Nat) (v : Cell) :
    (set_row t i v).cols = t.cols := rfl

theorem set_row_other (t : Summary) (i : Nat) (v : Cell) (j : Nat) (d : String)
    (hj : j ≠ i) : (set_row t i v).cell j d = t.cell j d := by
  unfold set_row
  simp [hj]

theorem set_row_self (t : Summary) (i : Nat) (v : Cell) (d : String)
    (hd : d ∈ t.cols) : (set_row t i v).cell i d = v := by
  unfold set_row
  simp [hd]

theorem fold_set_cell_mem_cols (f : String → Cell) (idx : Nat) :
    ∀ (ls : List String) (t : Summary) (d : String), d ∈ t.cols →
      d ∈ ((ls.foldl (fun acc col => set_cell acc idx col (f col)) t).cols) := by
  intro ls
  induction ls with
  | nil => intro t d hd; exact hd
  | cons a rest ih =>
    intro t d hd
    exact ih (set_cell t idx a (f a)) d (set_cell_mem_cols t idx a (f a) d hd)

theorem fold_set_cell_mem_of_mem_list (f : String → Cell) (idx : Nat) :
    ∀ (ls : List String) (t : Summary) (d : String), d ∈ ls →
      d ∈ ((ls.foldl (fun acc col => set_cell acc idx col (f col)) t).cols) := by
  intro ls
  induction ls with
  | nil => intro t d hd; simp at hd
  | cons a rest ih =>
    intro t d hd
    rcases List.mem_cons.mp hd with heq | hmem
    · subst heq
      exact fold_set_cell_mem_cols f idx rest (set_cell t idx d (f d)) d
        (set_cell_mem_self t idx d (f d))
    · exact ih (set_cell t idx a (f a)) d hmem

theorem fold_set_cell_other_row (f : String → Cell) (idx : Nat) :
    ∀ (ls : List String) (t : Summary) (j : Nat) (d : String), j ≠ idx →
      d ∈ t.cols →
      (ls.foldl (fun acc col => set_cell acc idx col (f col)) t).cell j d =
        t.cell j d := by
  intro ls
  induction ls with
  | nil => intro t j d _ _; rfl
  | cons a rest ih =>
    intro t j d hj hd
    rw [List.foldl_cons,
      ih (set_cell t idx a (f a)) j d hj (set_cell_mem_cols t idx a (f a) d hd),
      set_cell_other_row t idx a (f a) j d hj hd]

theorem fold_set_cell_not_mem (f : String → Cell) (idx : Nat) :
    ∀ (ls : List String) (t : Summary) (j : Nat) (d : String), d ∉ ls →
      (ls.foldl (fun acc col => set_cell acc idx col (f col)) t).cell j d =
        t.cell j d := by
  intro ls
  induction ls with
  | nil => intro t j d _; rfl
  | cons a rest ih =>
    intro t j d hd
    rw [List.foldl_cons, ih (set_cell t idx a (f a)) j d (fun hm => hd (List.mem_cons_of_mem a hm)),
      set_cell_other_col t idx a (f a) j d (fun he => hd (he ▸ List.mem_cons_self a rest))]

theorem fold_set_cell_self (f : String → Cell) (idx : Nat) :
    ∀ (ls : List String) (t : Summary) (d : String), d ∈ ls →
      (ls.foldl (fun acc col => set_cell acc idx col (f col)) t).cell idx d = f d := by
  intro ls
  induction ls with
  | nil => intro t d hd; simp at hd
  | cons a rest ih =>
    intro t d hd
    by_cases hmem : d ∈ rest
    · rw [List.foldl_cons]
      exact ih (set_cell t idx a (f a)) d hmem
    · have heq : d = a := by
        rcases List.mem_cons.mp hd with h | h
        · exact h
        · exact absurd h hmem
      subst heq
      rw [List.foldl_cons, fold_set_cell_not_mem f idx rest _ idx d hmem,
        set_cell_self t idx d (f d)]

/-! Lemmas about the row-filling and marking operations. -/

theorem mark_invalid_year_mem_cols (t : Summary) (y : Int) (idx : Nat)
    (ycol : String) (co : Bool) (d : String) (hd : d ∈ t.cols) :
    d ∈ (mark_invalid_year t y idx ycol co).cols := by
  cases co
  · show d ∈ (set_cell (set_row t idx (Cell.strC "no data")) idx ycol (Cell.intC y)).cols
    exact set_cell_mem_cols _ _ _ _ _ hd
  · show d ∈ (set_cell (set_row t idx (Cell.floatC 0)) idx ycol (Cell.intC y)).cols
    exact set_cell_mem_cols _ _ _ _ _ hd

theorem mark_invalid_year_ycol_mem (t : Summary) (y : Int) (idx : Nat)
    (ycol : String) (co : Bool) : ycol ∈ (mark_invalid_year t y idx ycol co).cols := by
  cases co
  · show ycol ∈ (set_cell (set_row t idx (Cell.strC "no data")) idx ycol (Cell.intC y)).cols
    exact set_cell_mem_self _ _ _ _
  · show ycol ∈ (set_cell (set_row t idx (Cell.floatC 0)) idx ycol (Cell.intC y)).cols
    exact set_cell_mem_self _ _ _ _

theorem mark_invalid_year_other_row (t : Summary) (y : Int) (idx : Nat)
    (ycol : String) (co : Bool) (j : Nat) (d : String) (hj : j ≠ idx)
    (hd : d ∈ t.cols) :
    (mark_invalid_year t y idx ycol co).cell j d = t.cell j d := by
  cases co
  · show (set_cell (set_row t idx (Cell.strC "no data")) idx ycol (Cell.intC y)).cell j d =
      t.cell j d
    rw [set_cell_other_row (set_row t idx (Cell.strC "no data")) idx ycol (Cell.intC y) j d hj hd,
      set_row_other _ _ _ _ _ hj]
  · show (set_cell (set_row t idx (Cell.floatC 0)) idx ycol (Cell.intC y)).cell j d =
      t.cell j d
    rw [set_cell_other_row (set_row t idx (Cell.floatC 0)) idx ycol (Cell.intC y) j d hj hd,
      set_row_other _ _ _ _ _ hj]

theorem mark_invalid_year_sentinel (t : Summary) (y : Int) (idx : Nat)
    (ycol : String) (co : Bool) (d : String) (hd : d ∈ t.cols) (hdy : d ≠ ycol) :
    (mark_invalid_year t y idx ycol co).cell idx d =
      (if co then Cell.floatC 0 else Cell.strC "no data") := by
  cases co
  · show (set_cell (set_row t idx (Cell.strC "no data")) idx ycol (Cell.intC y)).cell idx d =
      Cell.strC "no data"
    rw [set_cell_other_col (set_row t idx (Cell.strC "no data")) idx ycol (Cell.intC y) idx d hdy,
      set_row_self t idx (Cell.strC "no data") d hd]
  · show (set_cell (set_row t idx (Cell.floatC 0)) idx ycol (Cell.intC y)).cell idx d =
      Cell.floatC 0
    rw [set_cell_other_col (set_row t idx (Cell.floatC 0)) idx ycol (Cell.intC y) idx d hdy,
      set_row_self t idx (Cell.floatC 0) d hd]

theorem mark_invalid_year_year_cell (t : Summary) (y : Int) (idx : Nat)
    (ycol : String) (co : Bool) :
    (mark_invalid_year t y idx ycol co).cell idx ycol = Cell.intC y := by
  cases co
  · show (set_cell (set_row t idx (Cell.strC "no data")) idx ycol (Cell.intC y)).cell idx ycol =
      Cell.intC y
    exact set_cell_self _ _ _ _
  · show (set_cell (set_row t idx (Cell.floatC 0)) idx ycol (Cell.intC y)).cell idx ycol =
      Cell.intC y
    exact set_cell_self _ _ _ _

theorem fill_measurement_mem_cols (t : Summary) (y : Int) (idx : Nat)
    (mcols : List String) (ycol : String) (d : String) (hd : d ∈ t.cols) :
    d ∈ (fill_measurement_summary_row t y idx mcols ycol).cols := by
  unfold fill_measurement_summary_row
  exact fold_set_cell_mem_cols _ idx mcols _ d (set_cell_mem_cols _ _ _ _ _ hd)

theorem fill_measurement_other_row (t : Summary) (y : Int) (idx : Nat)
    (mcols : List String) (ycol : String) (j : Nat) (d : String) (hj : j ≠ idx)
    (hd : d ∈ t.cols) :
    (fill_measurement_summary_row t y idx mcols ycol).cell j d = t.cell j d := by
  unfold fill_measurement_summary_row
  rw [fold_set_cell_other_row _ idx mcols _ j d hj (set_cell_mem_cols _ _ _ _ _ hd),
    set_cell_other_row _ _ _ _ _ _ hj hd]

theorem fill_measurement_self_mem (t : Summary) (y : Int) (idx : Nat)
    (mcols : List String) (ycol : String) (d : String) (hd : d ∈ mcols) :
    (fill_measurement_summary_row t y idx mcols ycol).cell idx d = Cell.boolC true := by
  unfold fill_measurement_summary_row
  exact fold_set_cell_self _ idx mcols _ d hd

theorem fill_measurement_self_not_mem (t : Summary) (y : Int) (idx : Nat)
    (mcols : List String) (ycol : String) (d : String) (hd : d ∉ mcols)
    (hdy : d ≠ ycol) :
    (fill_measurement_summary_row t y idx mcols ycol).cell idx d = t.cell idx d := by
  unfold fill_measurement_summary_row
  rw [fold_set_cell_not_mem _ idx mcols _ idx d hd,
    set_cell_other_col _ _ _ _ _ _ hdy]

theorem fill_status_mem_cols (t : Summary) (y : Int) (idx : Nat) (df : DataFrame)
    (scols : List String) (ycol : String) (co : Bool) (d : String) (hd : d ∈ t.cols) :
    d ∈ (fill_status_summary_row t y idx df scols ycol co).cols := by
  unfold fill_status_summary_row
  exact fold_set_cell_mem_cols _ idx scols _ d (set_cell_mem_cols _ _ _ _ _ hd)

theorem fill_status_other_row (t : Summary) (y : Int) (idx : Nat) (df : DataFrame)
    (scols : List String) (ycol : String) (co : Bool) (j : Nat) (d : String)
    (hj : j ≠ idx) (hd : d ∈ t.cols) :
    (fill_status_summary_row t y idx df scols ycol co).cell j d = t.cell j d := by
  unfold fill_status_summary_row
  rw [fold_set_cell_other_row _ idx scols _ j d hj (set_cell_mem_cols _ _ _ _ _ hd),
    set_cell_other_row _ _ _ _ _ _ hj hd]

theorem fill_status_self_mem (t : Summary) (y : Int) (idx : Nat) (df : DataFrame)
    (scols : List String) (ycol : String) (co : Bool) (d : String) (hd : d ∈ scols) :
    (fill_status_summary_row t y idx df scols ycol co).cell idx d =
      status_summary_cell co (df_col_data df d) := by
  unfold fill_status_summary_row
  exact fold_set_cell_self _ idx scols _ d hd

theorem fill_status_self_not_mem (t : Summary) (y : Int) (idx : Nat) (df : DataFrame)
    (scols : List String) (ycol : String) (co : Bool) (d : String) (hd : d ∉ scols)
    (hdy : d ≠ ycol) :
    (fill_status_summary_row t y idx df scols ycol co).cell idx d = t.cell idx d := by
  unfold fill_status_summary_row
  rw [fold_set_cell_not_mem _ idx scols _ idx d hd,
    set_cell_other_col _ _ _ _ _ _ hdy]

theorem fill_unit_mem_cols (t : Summary) (y : Int) (idx : Nat) (df : DataFrame)
    (ucols : List String) (ycol : String) (co : Bool) (d : String) (hd : d ∈ t.cols) :
    d ∈ (fill_unit_summary_row t y idx df ucols ycol co).cols := by
  unfold fill_unit_summary_row
  exact fold_set_cell_mem_cols _ idx ucols _ d (set_cell_mem_cols _ _ _ _ _ hd)

theorem fill_unit_other_row (t : Summary) (y : Int) (idx : Nat) (df : DataFrame)
    (ucols : List String) (ycol : String) (co : Bool) (j : Nat) (d : String)
    (hj : j ≠ idx) (hd : d ∈ t.cols) :
    (fill_unit_summary_row t y idx df ucols ycol co).cell j d = t.cell j d := by
  unfold fill_unit_summary_row
  rw [fold_set_cell_other_row _ idx ucols _ j d hj (set_cell_mem_cols _ _ _ _ _ hd),
    set_cell_other_row _ _ _ _ _ _ hj hd]

theorem fill_unit_self_mem (t : Summary) (y : Int) (idx : Nat) (df : DataFrame)
    (ucols : List String) (ycol : String) (co : Bool) (d : String) (hd : d ∈ ucols) :
    (fill_unit_summary_row t y idx df ucols ycol co).cell idx d =
      unit_summary_cell co (df_col_data df d) := by
  unfold fill_unit_summary_row
  exact fold_set_cell_self _ idx ucols _ d hd

theorem fill_unit_self_not_mem (t : Summary) (y : Int) (idx : Nat) (df : DataFrame)
    (ucols : List String) (ycol : String) (co : Bool) (d : String) (hd : d ∉ ucols)
    (hdy : d ≠ ycol) :
    (fill_unit_summary_row t y idx df ucols ycol co).cell idx d = t.cell idx d := by
  unfold fill_unit_summary_row
  rw [fold_set_cell_not_mem _ idx ucols _ idx d hd,
    set_cell_other_col _ _ _ _ _ _ hdy]

theorem fill_measurement_year_cell (t : Summary) (y : Int) (idx : Nat)
    (mcols : List String) (ycol : String) (hy : ycol ∉ mcols) :
    (fill_measurement_summary_row t y idx mcols ycol).cell idx ycol = Cell.intC y := by
  unfold fill_measurement_summary_row
  rw [fold_set_cell_not_mem _ idx mcols _ idx ycol hy, set_cell_self]

theorem fill_measurement_ycol_mem (t : Summary) (y : Int) (idx : Nat)
    (mcols : List String) (ycol : String) :
    ycol ∈ (fill_measurement_summary_row t y idx mcols ycol).cols := by
  unfold fill_measurement_summary_row
  exact fold_set_cell_mem_cols _ idx mcols _ ycol (set_cell_mem_self _ _ _ _)

theorem create_empty_summary_cols (sc : List String) (ys : List Int) (ycol : String) :
    (create_empty_summary sc ys ycol).cols = ycol :: sc := rfl

theorem create_empty_summary_cell_mem (sc : List String) (ys : List Int)
    (ycol : String) (j : Nat) (d : String) (hd : d ∈ sc) :
    (create_empty_summary sc ys ycol).cell j d = Cell.boolC false := by
  unfold create_empty_summary
  simp [hd]

/-! Lemmas about the finalisation operations. -/

theorem fillna_cell_of_ne_nan (t : Summary) (v : Cell) (j : Nat) (d : String)
    (h : t.cell j d ≠ Cell.nan) : (fillna t v).cell j d = t.cell j d := by
  unfold fillna
  simp [h]

theorem fillna_cell_ne_nan (t : Summary) (v : Cell) (j : Nat) (d : String)
    (hv : v ≠ Cell.nan) : (fillna t v).cell j d ≠ Cell.nan := by
  unfold fillna
  simp only
  split_ifs with h
  · exact hv
  · exact h

theorem replace_cell_of_ne (t : Summary) (old new : Cell) (j : Nat) (d : String)
    (h : t.cell j d ≠ old) : (replace_cell t old new).cell j d = t.cell j d := by
  unfold replace_cell
  simp [h]

theorem replace_cell_of_eq (t : Summary) (old new : Cell) (j : Nat) (d : String)
    (h : t.cell j d = old) : (replace_cell t old new).cell j d = new := by
  unfold replace_cell
  simp [h]

/-! Lemmas about the main loop of `monitoring_site_summary`. -/

theorem summary_step_none (fetch : Int → Option DataFrame) (s u : String)
    (so uo : Int) (ycol : String) (st : SummaryState) (idx : Nat) (y : Int)
    (hf : fetch y = none) :
    summary_step fetch s u so uo ycol st idx y = some
      { st with
        measurement_summary := mark_invalid_year st.measurement_summary y idx ycol false,
        status_summary := mark_invalid_year st.status_summary y idx ycol false,
        unit_summary := mark_invalid_year st.unit_summary y idx ycol false,
        unique_status_counts := mark_invalid_year st.unique_status_counts y idx ycol true,
        unique_unit_counts := mark_invalid_year st.unique_unit_counts y idx ycol true } := by
  unfold summary_step
  rw [hf]

theorem summary_step_some (fetch : Int → Option DataFrame) (s u : String)
    (so uo : Int) (ycol : String) (st : SummaryState) (idx : Nat) (y : Int)
    (raw ry : DataFrame) (hf : fetch y = some raw)
    (hr : rename_status_and_unit_columns raw s u so uo = some ry) :
    summary_step fetch s u so uo ycol st idx y = some
      { measurement_summary := fill_measurement_summary_row st.measurement_summary y idx
          (split_column_types (df_cols ry) s u).1 ycol,
        status_summary := fill_status_summary_row st.status_summary y idx ry
          (split_column_types (df_cols ry) s u).2.1 ycol false,
        unit_summary := fill_unit_summary_row st.unit_summary y idx ry
          (split_column_types (df_cols ry) s u).2.2 ycol false,
        unique_status_counts := fill_status_summary_row st.unique_status_counts y idx ry
          (split_column_types (df_cols ry) s u).2.1 ycol true,
        unique_unit_counts := fill_unit_summary_row st.unique_unit_counts y idx ry
          (split_column_types (df_cols ry) s u).2.2 ycol true,
        data_dict := st.data_dict ++ [(y, ry)] } := by
  unfold summary_step
  simp only [hf, hr]

theorem summary_step_preserves (fetch : Int → Option DataFrame) (s u : String)
    (so uo : Int) (ycol : String) (st : SummaryState) (idx : Nat) (y : Int)
    (st2 : SummaryState) (h : summary_step fetch s u so uo ycol st idx y = some st2)
    (j : Nat) (hj : j ≠ idx) (d : String) :
    (d ∈ st.measurement_summary.cols →
      st2.measurement_summary.cell j d = st.measurement_summary.cell j d
        ∧ d ∈ st2.measurement_summary.cols)
    ∧ (d ∈ st.status_summary.cols →
      st2.status_summary.cell j d = st.status_summary.cell j d
        ∧ d ∈ st2.status_summary.cols)
    ∧ (d ∈ st.unit_summary.cols →
      st2.unit_summary.cell j d = st.unit_summary.cell j d
        ∧ d ∈ st2.unit_summary.cols)
    ∧ (d ∈ st.unique_status_counts.cols →
      st2.unique_status_counts.cell j d = st.unique_status_counts.cell j d
        ∧ d ∈ st2.unique_status_counts.cols)
    ∧ (d ∈ st.unique_unit_counts.cols →
      st2.unique_unit_counts.cell j d = st.unique_unit_counts.cell j d
        ∧ d ∈ st2.unique_unit_counts.cols) := by
  cases hf : fetch y with
  | none =>
    rw [summary_step_none fetch s u so uo ycol st idx y hf] at h
    injection h with h2
    subst h2
    exact ⟨fun hd => ⟨mark_invalid_year_other_row _ _ _ _ _ _ _ hj hd,
        mark_invalid_year_mem_cols _ _ _ _ _ _ hd⟩,
      fun hd => ⟨mark_invalid_year_other_row _ _ _ _ _ _ _ hj hd,
        mark_invalid_year_mem_cols _ _ _ _ _ _ hd⟩,
      fun hd => ⟨mark_invalid_year_other_row _ _ _ _ _ _ _ hj hd,
        mark_invalid_year_mem_cols _ _ _ _ _ _ hd⟩,
      fun hd => ⟨mark_invalid_year_other_row _ _ _ _ _ _ _ hj hd,
        mark_invalid_year_mem_cols _ _ _ _ _ _ hd⟩,
      fun hd => ⟨mark_invalid_year_other_row _ _ _ _ _ _ _ hj hd,
        mark_invalid_year_mem_cols _ _ _ _ _ _ hd⟩⟩
  | some raw =>
    cases hr : rename_status_and_unit_columns raw s u so uo with
    | none =>
      exfalso
      unfold summary_step at h
      simp only [hf, hr] at h
      exact Option.noConfusion h
    | some ry =>
      rw [summary_step_some fetch s u so uo ycol st idx y raw ry hf hr] at h
      injection h with h2
      subst h2
      exact ⟨fun hd => ⟨fill_measurement_other_row _ _ _ _ _ _ _ hj hd,
          fill_measurement_mem_cols _ _ _ _ _ _ hd⟩,
        fun hd => ⟨fill_status_other_row _ _ _ _ _ _ _ _ _ hj hd,
          fill_status_mem_cols _ _ _ _ _ _ _ _ hd⟩,
        fun hd => ⟨fill_unit_other_row _ _ _ _ _ _ _ _ _ hj hd,
          fill_unit_mem_cols _ _ _ _ _ _ _ _ hd⟩,
        fun hd => ⟨fill_status_other_row _ _ _ _ _ _ _ _ _ hj hd,
          fill_status_mem_cols _ _ _ _ _ _ _ _ hd⟩,
        fun hd => ⟨fill_unit_other_row _ _ _ _ _ _ _ _ _ hj hd,
          fill_unit_mem_cols _ _ _ _ _ _ _ _ hd⟩⟩

theorem summary_loop_cons (fetch : Int → Option DataFrame) (s u : String)
    (so uo : Int) (ycol : String) (st : SummaryState) (k : Nat) (y : Int)
    (rest : List Int) (st' : SummaryState)
    (h : summary_loop fetch s u so uo ycol st k (y :: rest) = some st') :
    ∃ st2, summary_step fetch s u so uo ycol st k y = some st2 ∧
      summary_loop fetch s u so uo ycol st2 (k + 1) rest = some st' := by
  unfold summary_loop at h
  cases hstep : summary_step fetch s u so uo ycol st k y with
  | none =>
    rw [hstep] at h
    exact Option.noConfusion h
  | some st2 =>
    rw [hstep] at h
    exact ⟨st2, rfl, h⟩

theorem summary_loop_preserves (fetch : Int → Option DataFrame) (s u : String)
    (so uo : Int) (ycol : String) :
    ∀ (l : List Int) (k : Nat) (st st' : SummaryState),
      summary_loop fetch s u so uo ycol st k l = some st' →
      ∀ (j : Nat), j < k → ∀ (d : String),
      (d ∈ st.measurement_summary.cols →
        st'.measurement_summary.cell j d = st.measurement_summary.cell j d
          ∧ d ∈ st'.measurement_summary.cols)
      ∧ (d ∈ st.status_summary.cols →
        st'.status_summary.cell j d = st.status_summary.cell j d
          ∧ d ∈ st'.status_summary.cols)
      ∧ (d ∈ st.unit_summary.cols →
        st'.unit_summary.cell j d = st.unit_summary.cell j d
          ∧ d ∈ st'.unit_summary.cols)
      ∧ (d ∈ st.unique_status_counts.cols →
        st'.unique_status_counts.cell j d = st.unique_status_counts.cell j d
          ∧ d ∈ st'.unique_status_counts.cols)
      ∧ (d ∈ st.unique_unit_counts.cols →
        st'.unique_unit_counts.cell j d = st.unique_unit_counts.cell j d
          ∧ d ∈ st'.unique_unit_counts.cols) := by
  intro l
  induction l with
  | nil =>
    intro k st st' h j _ d
    unfold summary_loop at h
    injection h with h2
    subst h2
    exact ⟨fun hd => ⟨rfl, hd⟩, fun hd => ⟨rfl, hd⟩, fun hd => ⟨rfl, hd⟩,
      fun hd => ⟨rfl, hd⟩, fun hd => ⟨rfl, hd⟩⟩
  | cons y rest ih =>
    intro k st st' h j hj d
    obtain ⟨st2, hstep, hloop⟩ :=
      summary_loop_cons fetch s u so uo ycol st k y rest st' h
    have hsp := summary_step_preserves fetch s u so uo ycol st k y st2 hstep j
      (by omega) d
    have hlp := ih (k + 1) st2 st' hloop j (by omega) d
    refine ⟨fun hd => ?_, fun hd => ?_, fun hd => ?_, fun hd => ?_, fun hd => ?_⟩
    · obtain ⟨e1, m1⟩ := hsp.1 hd
      obtain ⟨e2, m2⟩ := hlp.1 m1
      exact ⟨e2.trans e1, m2⟩
    · obtain ⟨e1, m1⟩ := hsp.2.1 hd
      obtain ⟨e2, m2⟩ := hlp.2.1 m1
      exact ⟨e2.trans e1, m2⟩
    · obtain ⟨e1, m1⟩ := hsp.2.2.1 hd
      obtain ⟨e2, m2⟩ := hlp.2.2.1 m1
      exact ⟨e2.trans e1, m2⟩
    · obtain ⟨e1, m1⟩ := hsp.2.2.2.1 hd
      obtain ⟨e2, m2⟩ := hlp.2.2.2.1 m1
      exact ⟨e2.trans e1, m2⟩
    · obtain ⟨e1, m1⟩ := hsp.2.2.2.2 hd
      obtain ⟨e2, m2⟩ := hlp.2.2.2.2 m1
      exact ⟨e2.trans e1, m2⟩

theorem summary_loop_char (fetch : Int → Option DataFrame) (s u : String)
    (so uo : Int) (ycol : String) :
    ∀ (l : List Int) (k : Nat) (st st' : SummaryState),
      summary_loop fetch s u so uo ycol st k l = some st' →
      ∀ (j : Nat) (hj : j < l.length),
        (fetch (l.get ⟨j, hj⟩) = none →
          (∀ d, d ≠ ycol →
            (d ∈ st.measurement_summary.cols →
              st'.measurement_summary.cell (k + j) d = Cell.strC "no data")
            ∧ (d ∈ st.status_summary.cols →
              st'.status_summary.cell (k + j) d = Cell.strC "no data")
            ∧ (d ∈ st.unit_summary.cols →
              st'.unit_summary.cell (k + j) d = Cell.strC "no data")
            ∧ (d ∈ st.unique_status_counts.cols →
              st'.unique_status_counts.cell (k + j) d = Cell.floatC 0)
            ∧ (d ∈ st.unique_unit_counts.cols →
              st'.unique_unit_counts.cell (k + j) d = Cell.floatC 0))
          ∧ st'.measurement_summary.cell (k + j) ycol = Cell.intC (l.get ⟨j, hj⟩)
          ∧ st'.status_summary.cell (k + j) ycol = Cell.intC (l.get ⟨j, hj⟩)
          ∧ st'.unit_summary.cell (k + j) ycol = Cell.intC (l.get ⟨j, hj⟩)
          ∧ st'.unique_status_counts.cell (k + j) ycol = Cell.intC (l.get ⟨j, hj⟩)
          ∧ st'.unique_unit_counts.cell (k + j) ycol = Cell.intC (l.get ⟨j, hj⟩))
        ∧ (∀ raw ry, fetch (l.get ⟨j, hj⟩) = some raw →
            rename_status_and_unit_columns raw s u so uo = some ry →
            ∀ d, d ≠ ycol →
              (d ∈ st.measurement_summary.cols →
                st'.measurement_summary.cell (k + j) d =
                  (if d ∈ (split_column_types (df_cols ry) s u).1 then Cell.boolC true
                    else st.measurement_summary.cell (k + j) d))
              ∧ (d ∈ st.unique_status_counts.cols →
                st'.unique_status_counts.cell (k + j) d =
                  (if d ∈ (split_column_types (df_cols ry) s u).2.1 then
                      status_summary_cell true (df_col_data ry d)
                    else st.unique_status_counts.cell (k + j) d))
              ∧ (d ∈ st.unique_unit_counts.cols →
                st'.unique_unit_counts.cell (k + j) d =
                  (if d ∈ (split_column_types (df_cols ry) s u).2.2 then
                      unit_summary_cell true (df_col_data ry d)
                    else st.unique_unit_counts.cell (k + j) d))) := by
  intro l
  induction l with
  | nil =>
    intro k st st' _ j hj
    exact absurd hj (by simp)
  | cons y rest ih =>
    intro k st st' h j hj
    obtain ⟨st2, hstep, hloop⟩ :=
      summary_loop_cons fetch s u so uo ycol st k y rest st' h
    cases j with
    | zero =>
      constructor
      · intro hf
        rw [summary_step_none fetch s u so uo ycol st k y hf] at hstep
        injection hstep with h2
        subst h2
        have hpres := summary_loop_preserves fetch s u so uo ycol rest (k + 1) _ st'
          hloop k (by omega)
        refine ⟨?_, ?_, ?_, ?_, ?_, ?_⟩
        · intro d hdy
          refine ⟨fun hd => ?_, fun hd => ?_, fun hd => ?_, fun hd => ?_, fun hd => ?_⟩
          · obtain ⟨e, _⟩ := (hpres d).1 (mark_invalid_year_mem_cols _ _ _ _ _ _ hd)
            exact e.trans (mark_invalid_year_sentinel _ y k ycol false d hd hdy)
          · obtain ⟨e, _⟩ := (hpres d).2.1 (mark_invalid_year_mem_cols _ _ _ _ _ _ hd)
            exact e.trans (mark_invalid_year_sentinel _ y k ycol false d hd hdy)
          · obtain ⟨e, _⟩ := (hpres d).2.2.1 (mark_invalid_year_mem_cols _ _ _ _ _ _ hd)
            exact e.trans (mark_invalid_year_sentinel _ y k ycol false d hd hdy)
          · obtain ⟨e, _⟩ := (hpres d).2.2.2.1 (mark_invalid_year_mem_cols _ _ _ _ _ _ hd)
            exact e.trans (mark_invalid_year_sentinel _ y k ycol true d hd hdy)
          · obtain ⟨e, _⟩ := (hpres d).2.2.2.2 (mark_invalid_year_mem_cols _ _ _ _ _ _ hd)
            exact e.trans (mark_invalid_year_sentinel _ y k ycol true d hd hdy)
        · obtain ⟨e, _⟩ := (hpres ycol).1 (mark_invalid_year_ycol_mem _ _ _ _ _)
          exact e.trans (mark_invalid_year_year_cell _ y k ycol false)
        · obtain ⟨e, _⟩ := (hpres ycol).2.1 (mark_invalid_year_ycol_mem _ _ _ _ _)
          exact e.trans (mark_invalid_year_year_cell _ y k ycol false)
        · obtain ⟨e, _⟩ := (hpres ycol).2.2.1 (mark_invalid_year_ycol_mem _ _ _ _ _)
          exact e.trans (mark_invalid_year_year_cell _ y k ycol false)
        · obtain ⟨e, _⟩ := (hpres ycol).2.2.2.1 (mark_invalid_year_ycol_mem _ _ _ _ _)
          exact e.trans (mark_invalid_year_year_cell _ y k ycol true)
        · obtain ⟨e, _⟩ := (hpres ycol).2.2.2.2 (mark_invalid_year_ycol_mem _ _ _ _ _)
          exact e.trans (mark_invalid_year_year_cell _ y k ycol true)
      · intro raw ry hf hr d hdy
        rw [summary_step_some fetch s u so uo ycol st k y raw ry hf hr] at hstep
        injection hstep with h2
        subst h2
        have hpres := summary_loop_preserves fetch s u so uo ycol rest (k + 1) _ st'
          hloop k (by omega)
        refine ⟨fun hd => ?_, fun hd => ?_, fun hd => ?_⟩
        · by_cases hmem : d ∈ (split_column_types (df_cols ry) s u).1
          · obtain ⟨e, _⟩ := (hpres d).1 (fill_measurement_mem_cols _ _ _ _ _ _ hd)
            rw [if_pos hmem]
            exact e.trans (fill_measurement_self_mem _ y k _ ycol d hmem)
          · obtain ⟨e, _⟩ := (hpres d).1 (fill_measurement_mem_cols _ _ _ _ _ _ hd)
            rw [if_neg hmem]
            exact e.trans (fill_measurement_self_not_mem _ y k _ ycol d hmem hdy)
        · by_cases hmem : d ∈ (split_column_types (df_cols ry) s u).2.1
          · obtain ⟨e, _⟩ := (hpres d).2.2.2.1 (fill_status_mem_cols _ _ _ _ _ _ _ _ hd)
            rw [if_pos hmem]
            exact e.trans (fill_status_self_mem _ y k ry _ ycol true d hmem)
          · obtain ⟨e, _⟩ := (hpres d).2.2.2.1 (fill_status_mem_cols _ _ _ _ _ _ _ _ hd)
            rw [if_neg hmem]
            exact e.trans (fill_status_self_not_mem _ y k ry _ ycol true d hmem hdy)
        · by_cases hmem : d ∈ (split_column_types (df_cols ry) s u).2.2
          · obtain ⟨e, _⟩ := (hpres d).2.2.2.2 (fill_unit_mem_cols _ _ _ _ _ _ _ _ hd)
            rw [if_pos hmem]
            exact e.trans (fill_unit_self_mem _ y k ry _ ycol true d hmem)
          · obtain ⟨e, _⟩ := (hpres d).2.2.2.2 (fill_unit_mem_cols _ _ _ _ _ _ _ _ hd)
            rw [if_neg hmem]
            exact e.trans (fill_unit_self_not_mem _ y k ry _ ycol true d hmem hdy)
    | succ j2 =>
      have hj2 : j2 < rest.length := by
        simp only [List.length_cons] at hj
        omega
      have hih := ih (k + 1) st2 st' hloop j2 hj2
      have harith : k + 1 + j2 = k + (j2 + 1) := by omega
      rw [harith] at hih
      constructor
      · intro hf
        obtain ⟨hcells, hy1, hy2, hy3, hy4, hy5⟩ := hih.1 hf
        refine ⟨?_, hy1, hy2, hy3, hy4, hy5⟩
        intro d hdy
        obtain ⟨c1, c2, c3, c4, c5⟩ := hcells d hdy
        have hsp := summary_step_preserves fetch s u so uo ycol st k y st2 hstep
          (k + (j2 + 1)) (by omega) d
        exact ⟨fun hd => c1 (hsp.1 hd).2, fun hd => c2 (hsp.2.1 hd).2,
          fun hd => c3 (hsp.2.2.1 hd).2, fun hd => c4 (hsp.2.2.2.1 hd).2,
          fun hd => c5 (hsp.2.2.2.2 hd).2⟩
      · intro raw ry hf hr d hdy
        obtain ⟨c1, c2, c3⟩ := hih.2 raw ry hf hr d hdy
        have hsp := summary_step_preserves fetch s u so uo ycol st k y st2 hstep
          (k + (j2 + 1)) (by omega) d
        refine ⟨fun hd => ?_, fun hd => ?_, fun hd => ?_⟩
        · obtain ⟨e, m⟩ := hsp.1 hd
          have hv := c1 m
          rw [e] at hv
          exact hv
        · obtain ⟨e, m⟩ := hsp.2.2.2.1 hd
          have hv := c2 m
          rw [e] at hv
          exact hv
        · obtain ⟨e, m⟩ := hsp.2.2.2.2 hd
          have hv := c3 m
          rw [e] at hv
          exact hv

theorem monitoring_state_dissect (read_csv : ReadCsv) (site_id : String)
    (years : List Int) (header_lines : Nat) (fixed_url sep file_format s u : String)
    (so uo : Int) (final : SummaryState) (rc : List String)
    (hok : monitoring_site_summary_state read_csv site_id years header_lines
      fixed_url sep file_format s u so uo = Except.ok final)
    (href : (get_reference_columns read_csv site_id years header_lines fixed_url
      sep file_format s u so uo).2 = Except.ok rc) :
    ∃ stL, summary_loop
        (fun y => (get_single_year read_csv site_id y none header_lines fixed_url
          sep file_format).1) s u so uo year_col_title
        (initial_state rc (pySortDesc years) s u) 0 (pySortDesc years) = some stL
      ∧ final = finalize_state stL := by
  unfold monitoring_site_summary_state at hok
  have hpair : get_reference_columns read_csv site_id years header_lines fixed_url
      sep file_format s u so uo = (pySortDesc years, Except.ok rc) :=
    Prod.ext rfl href
  rw [hpair] at hok
  have hok2 : (match summary_loop
      (fun y => (get_single_year read_csv site_id y none header_lines fixed_url
        sep file_format).1) s u so uo year_col_title
      (initial_state rc (pySortDesc years) s u) 0 (pySortDesc years) with
    | some st => Except.ok (finalize_state st)
    | none => Except.error PyErr.indexError) = Except.ok final := hok
  cases hloop : summary_loop
      (fun y => (get_single_year read_csv site_id y none header_lines fixed_url
        sep file_format).1) s u so uo year_col_title
      (initial_state rc (pySortDesc years) s u) 0 (pySortDesc years) with
  | none =>
    rw [hloop] at hok2
    exact Except.noConfusion hok2
  | some stL =>
    rw [hloop] at hok2
    injection hok2 with h2
    exact ⟨stL, rfl, h2.symm⟩

/-- C5.  After `monitoring_site_summary` has processed all years and
finalised the tables, a reference measurement column absent from a
successfully fetched year's own (renamed) measurement columns holds `False`
in that year's row, a present one holds `True`, an untouched count cell holds
0.0, and no cell of the measurement or count tables is ever left as the
`nan` placeholder. -/
theorem monitoring_summary_finalization (read_csv : ReadCsv) (site_id : String)
    (years : List Int) (header_lines : Nat) (fixed_url sep file_format s u : String)
    (so uo : Int) (final : SummaryState) (rc : List String)
    (hok : monitoring_site_summary_state read_csv site_id years header_lines
      fixed_url sep file_format s u so uo = Except.ok final)
    (href : (get_reference_columns read_csv site_id years header_lines fixed_url
      sep file_format s u so uo).2 = Except.ok rc) :
    (∀ (j : Nat) (hj : j < (pySortDesc years).length) (d : String)
      (raw ry : DataFrame),
      d ≠ year_col_title →
      (get_single_year read_csv site_id ((pySortDesc years).get ⟨j, hj⟩) none
        header_lines fixed_url sep file_format).1 = some raw →
      rename_status_and_unit_columns raw s u so uo = some ry →
      ((d ∈ (split_column_types rc s u).1 →
          d ∉ (split_column_types (df_cols ry) s u).1 →
          final.measurement_summary.cell j d = Cell.boolC false)
        ∧ (d ∈ (split_column_types rc s u).1 →
          d ∈ (split_column_types (df_cols ry) s u).1 →
          final.measurement_summary.cell j d = Cell.boolC true)
        ∧ (d ∈ (split_column_types rc s u).2.1 →
          d ∉ (split_column_types (df_cols ry) s u).2.1 →
          final.unique_status_counts.cell j d = Cell.floatC 0)
        ∧ (d ∈ (split_column_types rc s u).2.2 →
          d ∉ (split_column_types (df_cols ry) s u).2.2 →
          final.unique_unit_counts.cell j d = Cell.floatC 0)))
    ∧ (∀ (j : Nat) (d : String),
        final.measurement_summary.cell j d ≠ Cell.nan
        ∧ final.unique_status_counts.cell j d ≠ Cell.nan
        ∧ final.unique_unit_counts.cell j d ≠ Cell.nan) := by
  obtain ⟨stL, hloop, hfin⟩ := monitoring_state_dissect read_csv site_id years
    header_lines fixed_url sep file_format s u so uo final rc hok href
  subst hfin
  constructor
  · intro j hj d raw ry hdy hfetch hren
    have hchar := (summary_loop_char
      (fun y => (get_single_year read_csv site_id y none header_lines fixed_url
        sep file_format).1) s u so uo year_col_title (pySortDesc years) 0
      (initial_state rc (pySortDesc years) s u) stL hloop j hj).2 raw ry hfetch
      hren d hdy
    rw [Nat.zero_add] at hchar
    refine ⟨fun hd hnot => ?_, fun hd hmem => ?_, fun hd hnot => ?_,
      fun hd hnot => ?_⟩
    · have hv := hchar.1 (List.mem_cons_of_mem year_col_title hd)
      rw [if_neg hnot] at hv
      have hinit : (initial_state rc (pySortDesc years) s u).measurement_summary.cell
          j d = Cell.boolC false :=
        create_empty_summary_cell_mem (split_column_types rc s u).1 _ _ j d hd
      rw [hinit] at hv
      show (fillna stL.measurement_summary (Cell.boolC false)).cell j d =
        Cell.boolC false
      have hne : stL.measurement_summary.cell j d ≠ Cell.nan := by
        rw [hv]
        intro hcc
        exact Cell.noConfusion hcc
      rw [fillna_cell_of_ne_nan _ _ _ _ hne, hv]
    · have hv := hchar.1 (List.mem_cons_of_mem year_col_title hd)
      rw [if_pos hmem] at hv
      show (fillna stL.measurement_summary (Cell.boolC false)).cell j d =
        Cell.boolC true
      have hne : stL.measurement_summary.cell j d ≠ Cell.nan := by
        rw [hv]
        intro hcc
        exact Cell.noConfusion hcc
      rw [fillna_cell_of_ne_nan _ _ _ _ hne, hv]
    · have hv := hchar.2.1 (List.mem_cons_of_mem year_col_title hd)
      rw [if_neg hnot] at hv
      have hinit : (initial_state rc (pySortDesc years) s u).unique_status_counts.cell
          j d = Cell.boolC false :=
        create_empty_summary_cell_mem (split_column_types rc s u).2.1 _ _ j d hd
      rw [hinit] at hv
      show (fillna (replace_cell stL.unique_status_counts (Cell.boolC false)
          (Cell.floatC 0)) (Cell.floatC 0)).cell j d = Cell.floatC 0
      have h1 : (replace_cell stL.unique_status_counts (Cell.boolC false)
          (Cell.floatC 0)).cell j d = Cell.floatC 0 :=
        replace_cell_of_eq _ _ _ _ _ hv
      rw [fillna_cell_of_ne_nan _ _ _ _ (by
          rw [h1]
          intro hcc
          exact Cell.noConfusion hcc), h1]
    · have hv := hchar.2.2 (List.mem_cons_of_mem year_col_title hd)
      rw [if_neg hnot] at hv
      have hinit : (initial_state rc (pySortDesc years) s u).unique_unit_counts.cell
          j d = Cell.boolC false :=
        create_empty_summary_cell_mem (split_column_types rc s u).2.2 _ _ j d hd
      rw [hinit] at hv
      show (fillna (replace_cell stL.unique_unit_counts (Cell.boolC false)
          (Cell.floatC 0)) (Cell.floatC 0)).cell j d = Cell.floatC 0
      have h1 : (replace_cell stL.unique_unit_counts (Cell.boolC false)
          (Cell.floatC 0)).cell j d = Cell.floatC 0 :=
        replace_cell_of_eq _ _ _ _ _ hv
      rw [fillna_cell_of_ne_nan _ _ _ _ (by
          rw [h1]
          intro hcc
          exact Cell.noConfusion hcc), h1]
  · intro j d
    refine ⟨?_, ?_, ?_⟩
    · show (fillna stL.measurement_summary (Cell.boolC false)).cell j d ≠ Cell.nan
      exact fillna_cell_ne_nan _ _ _ _ (fun hcc => Cell.noConfusion hcc)
    · show (fillna (replace_cell stL.unique_status_counts (Cell.boolC false)
          (Cell.floatC 0)) (Cell.floatC 0)).cell j d ≠ Cell.nan
      exact fillna_cell_ne_nan _ _ _ _ (fun hcc => Cell.noConfusion hcc)
    · show (fillna (replace_cell stL.unique_unit_counts (Cell.boolC false)
          (Cell.floatC 0)) (Cell.floatC 0)).cell j d ≠ Cell.nan
      exact fillna_cell_ne_nan _ _ _ _ (fun hcc => Cell.noConfusion hcc)

/-- C5 witness: with reference columns ["A", "B"] (from year 2020) and year
2019 carrying only column ["A"], the finalised measurement row of 2019 (row
index 1 after the descending sort) reads A = True and B = False. -/
theorem monitoring_summary_finalization_witness :
    ∃ final, monitoring_site_summary_state witness_oracle_ab "S" [2019, 2020] 0 "u"
        "_" "csv" "status" "unit" (-1) (-2) = Except.ok final
      ∧ final.measurement_summary.cell 1 "B" = Cell.boolC false
      ∧ final.measurement_summary.cell 1 "A" = Cell.boolC true := by
  cases hok : monitoring_site_summary_state witness_oracle_ab "S" [2019, 2020] 0 "u"
      "_" "csv" "status" "unit" (-1) (-2) with
  | error e =>
    have hsome : (monitoring_site_summary_state witness_oracle_ab "S" [2019, 2020] 0
        "u" "_" "csv" "status" "unit" (-1) (-2)).toOption.isSome = true := rfl
    rw [hok] at hsome
    exact Bool.noConfusion hsome
  | ok final =>
    have h := monitoring_summary_finalization witness_oracle_ab "S" [2019, 2020] 0
      "u" "_" "csv" "status" "unit" (-1) (-2) final ["A", "B"] hok rfl
    refine ⟨final, rfl, ?_, ?_⟩
    · exact (h.1 1 (by decide) "B" [("A", [some 1])] [("A", [some 1])] (by decide)
        rfl rfl).1 (by decide) (by decide)
    · exact (h.1 1 (by decide) "A" [("A", [some 1])] [("A", [some 1])] (by decide)
        rfl rfl).2.1 (by decide) (by decide)

/-- C6.  For a year whose full-data fetch returns the absent signal, the
finalised tables carry the sentinel "no data" in every reference column of
that year's row in the three descriptive tables and 0.0 in the count tables,
while the year column of that row records the year itself; and the loop
continues with the remaining years after marking such a year. -/
theorem monitoring_no_data_year (read_csv : ReadCsv) (site_id : String)
    (years : List Int) (header_lines : Nat) (fixed_url sep file_format s u : String)
    (so uo : Int) (final : SummaryState) (rc : List String)
    (hok : monitoring_site_summary_state read_csv site_id years header_lines
      fixed_url sep file_format s u so uo = Except.ok final)
    (href : (get_reference_columns read_csv site_id years header_lines fixed_url
      sep file_format s u so uo).2 = Except.ok rc)
    (j : Nat) (hj : j < (pySortDesc years).length)
    (hnone : (get_single_year read_csv site_id ((pySortDesc years).get ⟨j, hj⟩) none
      header_lines fixed_url sep file_format).1 = none) :
    (∀ d, d ≠ year_col_title →
      (d ∈ (split_column_types rc s u).1 →
        final.measurement_summary.cell j d = Cell.strC "no data")
      ∧ (d ∈ (split_column_types rc s u).2.1 →
        final.status_summary.cell j d = Cell.strC "no data")
      ∧ (d ∈ (split_column_types rc s u).2.2 →
        final.unit_summary.cell j d = Cell.strC "no data")
      ∧ (d ∈ (split_column_types rc s u).2.1 →
        final.unique_status_counts.cell j d = Cell.floatC 0)
      ∧ (d ∈ (split_column_types rc s u).2.2 →
        final.unique_unit_counts.cell j d = Cell.floatC 0))
    ∧ final.measurement_summary.cell j year_col_title =
        Cell.intC ((pySortDesc years).get ⟨j, hj⟩)
    ∧ final.status_summary.cell j year_col_title =
        Cell.intC ((pySortDesc years).get ⟨j, hj⟩)
    ∧ final.unit_summary.cell j year_col_title =
        Cell.intC ((pySortDesc years).get ⟨j, hj⟩)
    ∧ final.unique_status_counts.cell j year_col_title =
        Cell.intC ((pySortDesc years).get ⟨j, hj⟩)
    ∧ final.unique_unit_counts.cell j year_col_title =
        Cell.intC ((pySortDesc years).get ⟨j, hj⟩)
    ∧ (∀ (fetchF : Int → Option DataFrame) (st : SummaryState) (idx : Nat)
        (yy : Int) (rest : List Int), fetchF yy = none →
        ∃ st2, summary_step fetchF s u so uo year_col_title st idx yy = some st2 ∧
          summary_loop fetchF s u so uo year_col_title st idx (yy :: rest) =
            summary_loop fetchF s u so uo year_col_title st2 (idx + 1) rest) := by
  obtain ⟨stL, hloop, hfin⟩ := monitoring_state_dissect read_csv site_id years
    header_lines fixed_url sep file_format s u so uo final rc hok href
  subst hfin
  have hchar := (summary_loop_char
    (fun y => (get_single_year read_csv site_id y none header_lines fixed_url sep
      file_format).1) s u so uo year_col_title (pySortDesc years) 0
    (initial_state rc (pySortDesc years) s u) stL hloop j hj).1 hnone
  rw [Nat.zero_add] at hchar
  obtain ⟨hcells, hy1, hy2, hy3, hy4, hy5⟩ := hchar
  have hstr_ne : (Cell.strC "no data") ≠ Cell.nan := fun hcc => Cell.noConfusion hcc
  have hint_ne : ∀ z : Int, (Cell.intC z) ≠ Cell.nan := fun _ hcc => Cell.noConfusion hcc
  have hfloat_ne : (Cell.floatC 0) ≠ Cell.nan := fun hcc => Cell.noConfusion hcc
  have hstr_nf : (Cell.strC "no data") ≠ Cell.boolC false := fun hcc => Cell.noConfusion hcc
  have hint_nf : ∀ z : Int, (Cell.intC z) ≠ Cell.boolC false := fun _ hcc => Cell.noConfusion hcc
  have hfloat_nf : (Cell.floatC 0) ≠ Cell.boolC false := fun hcc => Cell.noConfusion hcc
  refine ⟨?_, ?_, ?_, ?_, ?_, ?_, ?_⟩
  · intro d hdy
    obtain ⟨c1, c2, c3, c4, c5⟩ := hcells d hdy
    refine ⟨fun hd => ?_, fun hd => ?_, fun hd => ?_, fun hd => ?_, fun hd => ?_⟩
    · have hv := c1 (List.mem_cons_of_mem year_col_title hd)
      show (fillna stL.measurement_summary (Cell.boolC false)).cell j d =
        Cell.strC "no data"
      rw [fillna_cell_of_ne_nan _ _ _ _ (by rw [hv]; exact hstr_ne), hv]
    · exact c2 (List.mem_cons_of_mem year_col_title hd)
    · exact c3 (List.mem_cons_of_mem year_col_title hd)
    · have hv := c4 (List.mem_cons_of_mem year_col_title hd)
      show (fillna (replace_cell stL.unique_status_counts (Cell.boolC false)
          (Cell.floatC 0)) (Cell.floatC 0)).cell j d = Cell.floatC 0
      have h1 : (replace_cell stL.unique_status_counts (Cell.boolC false)
          (Cell.floatC 0)).cell j d = Cell.floatC 0 := by
        rw [replace_cell_of_ne _ _ _ _ _ (by rw [hv]; exact hfloat_nf), hv]
      rw [fillna_cell_of_ne_nan _ _ _ _ (by rw [h1]; exact hfloat_ne), h1]
    · have hv := c5 (List.mem_cons_of_mem year_col_title hd)
      show (fillna (replace_cell stL.unique_unit_counts (Cell.boolC false)
          (Cell.floatC 0)) (Cell.floatC 0)).cell j d = Cell.floatC 0
      have h1 : (replace_cell stL.unique_unit_counts (Cell.boolC false)
          (Cell.floatC 0)).cell j d = Cell.floatC 0 := by
        rw [replace_cell_of_ne _ _ _ _ _ (by rw [hv]; exact hfloat_nf), hv]
      rw [fillna_cell_of_ne_nan _ _ _ _ (by rw [h1]; exact hfloat_ne), h1]
  · show (fillna stL.measurement_summary (Cell.boolC false)).cell j year_col_title =
      Cell.intC ((pySortDesc years).get ⟨j, hj⟩)
    rw [fillna_cell_of_ne_nan _ _ _ _ (by rw [hy1]; exact hint_ne _), hy1]
  · exact hy2
  · exact hy3
  · show (fillna (replace_cell stL.unique_status_counts (Cell.boolC false)
        (Cell.floatC 0)) (Cell.floatC 0)).cell j year_col_title =
      Cell.intC ((pySortDesc years).get ⟨j, hj⟩)
    have h1 : (replace_cell stL.unique_status_counts (Cell.boolC false)
        (Cell.floatC 0)).cell j year_col_title =
        Cell.intC ((pySortDesc years).get ⟨j, hj⟩) := by
      rw [replace_cell_of_ne _ _ _ _ _ (by rw [hy4]; exact hint_nf _), hy4]
    rw [fillna_cell_of_ne_nan _ _ _ _ (by rw [h1]; exact hint_ne _), h1]
  · show (fillna (replace_cell stL.unique_unit_counts (Cell.boolC false)
        (Cell.floatC 0)) (Cell.floatC 0)).cell j year_col_title =
      Cell.intC ((pySortDesc years).get ⟨j, hj⟩)
    have h1 : (replace_cell stL.unique_unit_counts (Cell.boolC false)
        (Cell.floatC 0)).cell j year_col_title =
        Cell.intC ((pySortDesc years).get ⟨j, hj⟩) := by
      rw [replace_cell_of_ne _ _ _ _ _ (by rw [hy5]; exact hint_nf _), hy5]
    rw [fillna_cell_of_ne_nan _ _ _ _ (by rw [h1]; exact hint_ne _), h1]
  · intro fetchF st idx yy rest hfy
    refine ⟨_, summary_step_none fetchF s u so uo year_col_title st idx yy hfy, ?_⟩
    show summary_loop fetchF s u so uo year_col_title st idx (yy :: rest) = _
    conv_lhs => rw [summary_loop]
    rw [summary_step_none fetchF s u so uo year_col_title st idx yy hfy]

/-- C6 witness: with years [2019, 2020] where only 2020 (columns ["A"]) is
retrievable, row 1 (year 2019) of the finalised tables reads "no data" under
column A and records 2019 in the year column. -/
theorem monitoring_no_data_year_witness :
    ∃ final, monitoring_site_summary_state witness_oracle_a "S" [2019, 2020] 0 "u"
        "_" "csv" "status" "unit" (-1) (-2) = Except.ok final
      ∧ final.measurement_summary.cell 1 "A" = Cell.strC "no data"
      ∧ final.status_summary.cell 1 year_col_title = Cell.intC 2019 := by
  cases hok : monitoring_site_summary_state witness_oracle_a "S" [2019, 2020] 0 "u"
      "_" "csv" "status" "unit" (-1) (-2) with
  | error e =>
    have hsome : (monitoring_site_summary_state witness_oracle_a "S" [2019, 2020] 0
        "u" "_" "csv" "status" "unit" (-1) (-2)).toOption.isSome = true := rfl
    rw [hok] at hsome
    exact Bool.noConfusion hsome
  | ok final =>
    have h := monitoring_no_data_year witness_oracle_a "S" [2019, 2020] 0 "u" "_"
      "csv" "status" "unit" (-1) (-2) final ["A"] hok rfl 1 (by decide) rfl
    exact ⟨final, rfl, (h.1 "A" (by decide)).1 (by decide), h.2.2.1⟩

/-! String-containment lemmas for the diagnostic messages. -/

theorem leadMatches_append (p rest : List Char) : leadMatches p (p ++ rest) = true := by
  induction p with
  | nil => rfl
  | cons c cs ih => simp [leadMatches, ih]

theorem sublistContains_nil_pat (l : List Char) : sublistContains l [] = true := by
  cases l with
  | nil => rfl
  | cons c rest => simp [sublistContains, leadMatches]

theorem sublistContains_append (x p ysfx : List Char) :
    sublistContains (x ++ (p ++ ysfx)) p = true := by
  induction x with
  | nil =>
    cases p with
    | nil => simpa using sublistContains_nil_pat ysfx
    | cons q qs =>
      have hlead := leadMatches_append (q :: qs) ysfx
      show sublistContains (q :: (qs ++ ysfx)) (q :: qs) = true
      unfold sublistContains
      rw [Bool.or_eq_true]
      exact Or.inl hlead
  | cons a xs ih =>
    show sublistContains (a :: (xs ++ (p ++ ysfx))) p = true
    simp [sublistContains, ih]

theorem strContainsSub_append (a p b : String) :
    strContainsSub (a ++ p ++ b) p = true := by
  unfold strContainsSub
  have hdata : (a ++ p ++ b).data = a.data ++ (p.data ++ b.data) := by
    rw [String.data_append, String.data_append, List.append_assoc]
  rw [hdata]
  exact sublistContains_append a.data p.data b.data

theorem ref_error_msg_contains_url (fixed_url : String) (ys : List Int) :
    strContainsSub (ref_error_msg fixed_url ys) fixed_url = true := by
  unfold ref_error_msg
  have hassoc : "Could not read data from: " ++ fixed_url ++ " for any years: " ++
      toString (ys.getLastD 0) ++ " - " ++ toString (ys.headD 0) ++
      "\nCheck the URL to ensure location code, years and file extension are all valid!" =
      "Could not read data from: " ++ fixed_url ++ (" for any years: " ++
      (toString (ys.getLastD 0) ++ (" - " ++ (toString (ys.headD 0) ++
      "\nCheck the URL to ensure location code, years and file extension are all valid!")))) := by
    simp [String.append_assoc]
  rw [hassoc]
  exact strContainsSub_append _ _ _

theorem ref_error_msg_contains_range (fixed_url : String) (ys : List Int) :
    strContainsSub (ref_error_msg fixed_url ys)
      (toString (ys.getLastD 0) ++ " - " ++ toString (ys.headD 0)) = true := by
  unfold ref_error_msg
  have hassoc : "Could not read data from: " ++ fixed_url ++ " for any years: " ++
      toString (ys.getLastD 0) ++ " - " ++ toString (ys.headD 0) ++
      "\nCheck the URL to ensure location code, years and file extension are all valid!" =
      ("Could not read data from: " ++ fixed_url ++ " for any years: ") ++
      (toString (ys.getLastD 0) ++ " - " ++ toString (ys.headD 0)) ++
      "\nCheck the URL to ensure location code, years and file extension are all valid!" := by
    simp [String.append_assoc]
  rw [hassoc]
  exact strContainsSub_append _ _ _

/-- C8.  `get_single_year` never lets an exception escape: for every
collaborator behaviour it either returns the parsed table (printing nothing)
or returns the absent signal `none` while printing a diagnostic that contains
the failed URL. -/
theorem get_single_year_spec (read_csv : ReadCsv) (site_id : String) (year : Int)
    (nrows : Option Nat) (header_lines : Nat) (fixed_url sep file_format : String) :
    (∀ df, read_csv (build_data_url fixed_url site_id sep year file_format)
        header_lines nrows = Except.ok df →
      get_single_year read_csv site_id year nrows header_lines fixed_url sep
        file_format = (some df, []))
    ∧ (∀ e, read_csv (build_data_url fixed_url site_id sep year file_format)
        header_lines nrows = Except.error e →
      get_single_year read_csv site_id year nrows header_lines fixed_url sep
          file_format =
        (none, [warning_message (build_data_url fixed_url site_id sep year
          file_format)])
        ∧ strContainsSub (warning_message (build_data_url fixed_url site_id sep year
            file_format)) (build_data_url fixed_url site_id sep year file_format) =
          true) := by
  constructor
  · intro df h
    unfold get_single_year
    simp only [h]
  · intro e h
    constructor
    · unfold get_single_year
      simp only [h]
    · unfold warning_message
      exact strContainsSub_append _ _ _

/-- C8 witness: a collaborator that always raises produces the absent signal
and a diagnostic quoting the URL. -/
theorem get_single_year_spec_witness :
    get_single_year (fun _ _ _ => Except.error "boom") "OX8" 2015 none 4 "u" "_"
        "csv" = (none, [warning_message (build_data_url "u" "OX8" "_" 2015 "csv")])
      ∧ strContainsSub (warning_message (build_data_url "u" "OX8" "_" 2015 "csv"))
          (build_data_url "u" "OX8" "_" 2015 "csv") = true :=
  (get_single_year_spec (fun _ _ _ => Except.error "boom") "OX8" 2015 none 4 "u" "_"
    "csv").2 "boom" rfl

/-- C9.  `get_reference_columns` sorts the caller's `years_of_interest` list
in place before doing anything else: whatever the outcome of the call, the
caller's list afterwards (the first component of the modelled result) is the
input list reordered into descending order. -/
theorem get_reference_columns_mutates_years (read_csv : ReadCsv) (site_id : String)
    (years_of_interest : List Int) (header_lines : Nat)
    (fixed_url sep file_format status_str unit_str : String)
    (status_offset unit_offset : Int) :
    (get_reference_columns read_csv site_id years_of_interest header_lines fixed_url
        sep file_format status_str unit_str status_offset unit_offset).1 =
      pySortDesc years_of_interest
    ∧ List.Sorted (fun a b => a ≥ b)
        (get_reference_columns read_csv site_id years_of_interest header_lines
          fixed_url sep file_format status_str unit_str status_offset unit_offset).1
    ∧ List.Perm
        (get_reference_columns read_csv site_id years_of_interest header_lines
          fixed_url sep file_format status_str unit_str status_offset unit_offset).1
        years_of_interest := by
  refine ⟨rfl, ?_, ?_⟩
  · show List.Sorted (fun a b => a ≥ b) (pySortDesc years_of_interest)
    exact List.sorted_insertionSort _ years_of_interest
  · show List.Perm (pySortDesc years_of_interest) years_of_interest
    exact List.perm_insertionSort _ years_of_interest

/-! Lemmas about the reference-year scanning loop. -/

theorem reference_columns_scan_all_none (read_csv : ReadCsv) (site_id : String)
    (header_lines : Nat) (fixed_url sep file_format s u : String) (so uo : Int)
    (ysFull : List Int) :
    ∀ l : List Int,
      (∀ y ∈ l, (get_single_year read_csv site_id y (some 1) header_lines fixed_url
        sep file_format).1 = none) →
      reference_columns_scan read_csv site_id header_lines fixed_url sep file_format
          s u so uo ysFull l =
        (if ysFull.isEmpty then Except.error PyErr.indexError
          else Except.error (PyErr.valueError (ref_error_msg fixed_url ysFull))) := by
  intro l
  induction l with
  | nil => intro _; rfl
  | cons y rest ih =>
    intro h
    unfold reference_columns_scan
    rw [h y (List.mem_cons_self y rest)]
    exact ih (fun z hz => h z (List.mem_cons_of_mem y hz))

theorem reference_columns_scan_first (read_csv : ReadCsv) (site_id : String)
    (header_lines : Nat) (fixed_url sep file_format s u : String) (so uo : Int)
    (ysFull : List Int) (ybest : Int) (raw renamed : DataFrame)
    (hfetch : (get_single_year read_csv site_id ybest (some 1) header_lines fixed_url
      sep file_format).1 = some raw)
    (hren : rename_status_and_unit_columns raw s u so uo = some renamed) :
    ∀ l : List Int, List.Sorted (fun a b => a ≥ b) l → ybest ∈ l →
      (∀ y ∈ l, (get_single_year read_csv site_id y (some 1) header_lines fixed_url
        sep file_format).1 ≠ none → y ≤ ybest) →
      reference_columns_scan read_csv site_id header_lines fixed_url sep file_format
        s u so uo ysFull l = Except.ok (df_cols renamed) := by
  intro l
  induction l with
  | nil =>
    intro _ hmem _
    simp at hmem
  | cons y rest ih =>
    intro hsort hmem hmax
    unfold reference_columns_scan
    cases hy : (get_single_year read_csv site_id y (some 1) header_lines fixed_url
        sep file_format).1 with
    | some raw2 =>
      have hyb : y = ybest := by
        have h1 : y ≤ ybest := hmax y (List.mem_cons_self y rest)
          (by rw [hy]; exact fun hcc => Option.noConfusion hcc)
        have h2 : ybest ≤ y := by
          rcases List.mem_cons.mp hmem with he | hm
          · rw [he]
          · exact (List.sorted_cons.mp hsort).1 ybest hm
        omega
      have hraw : raw2 = raw := by
        rw [hyb, hfetch] at hy
        injection hy with hy2
        exact hy2.symm
      simp only [hy, hraw, hren]
    | none =>
      have hmem2 : ybest ∈ rest := by
        rcases List.mem_cons.mp hmem with he | hm
        · exfalso
          rw [he] at hfetch
          rw [hy] at hfetch
          exact Option.noConfusion hfetch
        · exact hm
      simp only [hy]
      exact ih (List.sorted_cons.mp hsort).2 hmem2
        (fun z hz hnz => hmax z (List.mem_cons_of_mem y hz) hnz)

/-- C7.  `get_reference_columns` scans the years in descending order with a
one-row fetch and returns the renamed column titles of the most recent year
whose fetch succeeds; when every requested year is unavailable (and at least
one year was requested) it raises a `ValueError` whose message contains the
queried URL and the queried year range "min - max". -/
theorem get_reference_columns_spec (read_csv : ReadCsv) (site_id : String)
    (years_of_interest : List Int) (header_lines : Nat)
    (fixed_url sep file_format s u : String) (so uo : Int) :
    (∀ (ybest : Int) (raw renamed : DataFrame),
      ybest ∈ years_of_interest →
      (get_single_year read_csv site_id ybest (some 1) header_lines fixed_url sep
        file_format).1 = some raw →
      (∀ y ∈ years_of_interest,
        (get_single_year read_csv site_id y (some 1) header_lines fixed_url sep
          file_format).1 ≠ none → y ≤ ybest) →
      rename_status_and_unit_columns raw s u so uo = some renamed →
      (get_reference_columns read_csv site_id years_of_interest header_lines
        fixed_url sep file_format s u so uo).2 = Except.ok (df_cols renamed))
    ∧ ((∀ y ∈ years_of_interest,
        (get_single_year read_csv site_id y (some 1) header_lines fixed_url sep
          file_format).1 = none) →
      years_of_interest ≠ [] →
      ((get_reference_columns read_csv site_id years_of_interest header_lines
          fixed_url sep file_format s u so uo).2 =
        Except.error (PyErr.valueError (ref_error_msg fixed_url
          (pySortDesc years_of_interest)))
        ∧ strContainsSub (ref_error_msg fixed_url (pySortDesc years_of_interest))
            fixed_url = true
        ∧ strContainsSub (ref_error_msg fixed_url (pySortDesc years_of_interest))
            (toString ((pySortDesc years_of_interest).getLastD 0) ++ " - " ++
              toString ((pySortDesc years_of_interest).headD 0)) = true)) := by
  constructor
  · intro ybest raw renamed hmem hfetch hmax hren
    show reference_columns_scan read_csv site_id header_lines fixed_url sep
      file_format s u so uo (pySortDesc years_of_interest)
      (pySortDesc years_of_interest) = Except.ok (df_cols renamed)
    refine reference_columns_scan_first read_csv site_id header_lines fixed_url sep
      file_format s u so uo (pySortDesc years_of_interest) ybest raw renamed hfetch
      hren (pySortDesc years_of_interest) (List.sorted_insertionSort _ _) ?_ ?_
    · exact (List.perm_insertionSort _ years_of_interest).mem_iff.mpr hmem
    · intro y hy hnz
      exact hmax y ((List.perm_insertionSort _ years_of_interest).mem_iff.mp hy) hnz
  · intro hall hne
    have hsne : pySortDesc years_of_interest ≠ [] := by
      intro h0
      have hperm := List.perm_insertionSort (fun a b => a ≥ b) years_of_interest
      unfold pySortDesc at h0
      rw [h0] at hperm
      exact hne (List.Perm.eq_nil hperm.symm)
    refine ⟨?_, ref_error_msg_contains_url fixed_url _,
      ref_error_msg_contains_range fixed_url _⟩
    show reference_columns_scan read_csv site_id header_lines fixed_url sep
      file_format s u so uo (pySortDesc years_of_interest)
      (pySortDesc years_of_interest) = _
    rw [reference_columns_scan_all_none read_csv site_id header_lines fixed_url sep
      file_format s u so uo (pySortDesc years_of_interest)
      (pySortDesc years_of_interest)
      (fun yy hy => hall yy ((List.perm_insertionSort _ years_of_interest).mem_iff.mp hy))]
    have hF : (pySortDesc years_of_interest).isEmpty = false := by
      cases hys : pySortDesc years_of_interest with
      | nil => exact absurd hys hsne
      | cons a l2 => rfl
    rw [hF]
    rfl

/-- C7 witness: an always-failing collaborator over years [2015, 2014] makes
the function raise the `ValueError` naming the URL and the range 2014 - 2015. -/
theorem get_reference_columns_spec_witness :
    (get_reference_columns (fun _ _ _ => Except.error "x") "S" [2015, 2014] 0 "u"
        "_" "csv" "status" "unit" (-1) (-2)).2 =
      Except.error (PyErr.valueError (ref_error_msg "u" (pySortDesc [2015, 2014])))
    ∧ strContainsSub (ref_error_msg "u" (pySortDesc [2015, 2014])) "u" = true
    ∧ strContainsSub (ref_error_msg "u" (pySortDesc [2015, 2014]))
        (toString ((pySortDesc [2015, 2014]).getLastD 0) ++ " - " ++
          toString ((pySortDesc [2015, 2014]).headD 0)) = true :=
  (get_reference_columns_spec (fun _ _ _ => Except.error "x") "S" [2015, 2014] 0
    "u" "_" "csv" "status" "unit" (-1) (-2)).2 (fun y _ => rfl) (by decide)

end AirPollution
